import Mathlib

/-!
# T'REX controller (`LocalLibrary.cpp`): motion-control core

A shallow embedding of `ControllerInterface` from
`src/TREX_controller/TREX_controller/LocalLibrary.cpp`.

Conventions of the embedding:

* C `int` values are exact integers (`Int`).  Where the source's arithmetic
  can leave the range of an `int` (the products `(..)*8` of `RCmode`), a second
  definition (`RCmodeInt`) wraps every operation to a given width, and a
  theorem states when the two agree.
* C integer division `/` truncates toward zero: `Int.tdiv`.  A division whose
  divisor is zero has no value; code that can reach one returns `Except`.
* A pin written by `digitalWrite` / `analogWrite` is a field holding the
  value last written to it.
* A value obtained from the hardware (`pulseIn`, `digitalRead`,
  `analogRead`) is an argument of the function that reads it.
-/

namespace TRex

/-! ## Arduino helpers -/

/-- Arduino `abs(x)`, the macro `((x)>0?(x):-(x))`. -/
def cabs (x : Int) : Int := if x > 0 then x else -x

/-- C `a / b` on `int`: truncation toward zero, no value when `b = 0`. -/
def cdiv (a b : Int) : Option Int := if b = 0 then none else some (Int.tdiv a b)

/-! ## Controller state -/

/-- Member variables of `ControllerInterface` used by the motor, RC and
encoder code, the motor-driver pins, and the function-static variables of
`Encoders` (`lencold`, `lencnew`, `rencold`, `rencnew`). -/
structure State where
  /-- `RCdeadband`: RC deadband in microseconds. -/
  RCdeadband : Int
  /-- `lmspeed`: commanded left motor speed. -/
  lmspeed : Int
  /-- `rmspeed`: commanded right motor speed. -/
  rmspeed : Int
  /-- `lmbrake`: left brake, engaged when `> 0`. -/
  lmbrake : Int
  /-- `rmbrake`: right brake, engaged when `> 0`. -/
  rmbrake : Int
  /-- `lmenc`: left encoder tick count. -/
  lmenc : Int
  /-- `rmenc`: right encoder tick count. -/
  rmenc : Int
  /-- Level last written to `lmbrkpin`. -/
  lmbrkpin : Bool
  /-- Level last written to `lmdirpin`. -/
  lmdirpin : Bool
  /-- Duty last written to `lmpwmpin`. -/
  lmpwmpin : Int
  /-- Level last written to `rmbrkpin`. -/
  rmbrkpin : Bool
  /-- Level last written to `rmdirpin`. -/
  rmdirpin : Bool
  /-- Duty last written to `rmpwmpin`. -/
  rmpwmpin : Int
  /-- Static `lencold` of `Encoders` (a `digitalRead` level). -/
  lencold : Bool
  /-- Static `lencnew` of `Encoders`. -/
  lencnew : Bool
  /-- Static `rencold` of `Encoders`. -/
  rencold : Bool
  /-- Static `rencnew` of `Encoders`. -/
  rencnew : Bool
  deriving DecidableEq

/-- The constructor `ControllerInterface::ControllerInterface`: of the fields
modelled here it initialises `RCdeadband(35)` only; `s0` carries the values the
other members have when it runs. -/
def ControllerInterface (s0 : State) : State :=
  { s0 with RCdeadband := 35 }

/-! ## Motor output driver -/

/-- `ControllerInterface::Motors` (lines 120-131): one field per statement.
The statements read only `lmbrake`, `lmspeed`, `rmbrake` and `rmspeed`, which
none of them writes, so each right-hand side is over the entry state. -/
def Motors (s : State) : State :=
  { s with
    -- left motor
    lmbrkpin := decide (s.lmbrake > 0)
    lmdirpin := decide (s.lmspeed > 0)
    lmpwmpin := cabs s.lmspeed
    lmenc := if s.lmbrake > 0 ∧ s.lmspeed = 0 then 0 else s.lmenc
    -- right motor
    rmbrkpin := decide (s.rmbrake > 0)
    rmdirpin := decide (s.rmspeed > 0)
    rmpwmpin := cabs s.rmspeed
    rmenc := if s.rmbrake > 0 ∧ s.rmspeed = 0 then 0 else s.rmenc }

/-! ## RC input decoder -/

/-- Lines 171-172, `if (v==0) v=1500;`: a timed-out `pulseIn` reads 0. -/
def rcTimeout (v : Int) : Int := if v = 0 then 1500 else v

/-- Lines 174-175, `if (abs(v-1500)<RCdeadband) v=1500;`. -/
def rcSnap (RCdeadband v : Int) : Int :=
  if cabs (v - 1500) < RCdeadband then 1500 else v

/-- `ControllerInterface::RCmode` (lines 164-187) over exact integers.
`speedPulse` and `steerPulse` are the values returned by the two `pulseIn`
calls.  `RCmodeInt` below is the same code over an `int` of a given width. -/
def RCmode (s : State) (speedPulse steerPulse : Nat) : State :=
  let Speed : Int := (speedPulse : Int)
  let Steer : Int := (steerPulse : Int)
  let Speed := rcTimeout Speed
  let Steer := rcTimeout Steer
  let Speed := rcSnap s.RCdeadband Speed
  let Steer := rcSnap s.RCdeadband Steer
  let Steer := Steer - 1500
  let lmspeed := Int.tdiv ((Speed - Steer - 1500) * 8) 10
  let rmspeed := Int.tdiv ((Speed + Steer - 1500) * 8) 10
  let lmspeed := if lmspeed < -255 then -255 else lmspeed
  let lmspeed := if lmspeed > 255 then 255 else lmspeed
  let rmspeed := if rmspeed < -255 then -255 else rmspeed
  let rmspeed := if rmspeed > 255 then 255 else rmspeed
  Motors { s with lmspeed := lmspeed, rmspeed := rmspeed }

/-! ### The same code over a C `int` of `w` bits -/

/-- The value a two's-complement `int` of `w` bits holds after an operation
whose exact result is `x`: wrap-around into `[-2^(w-1), 2^(w-1))`. -/
def wrapInt (w : Nat) (x : Int) : Int := (x + 2 ^ (w - 1)) % 2 ^ w - 2 ^ (w - 1)

/-- Lines 174-175 over an `int` of `w` bits:
`if (abs(v-1500)<RCdeadband) v=1500;`. -/
def rcSnapInt (w : Nat) (RCdeadband v : Int) : Int :=
  if wrapInt w (cabs (wrapInt w (v - 1500))) < RCdeadband then 1500 else v

/-- `ControllerInterface::RCmode` (lines 164-187) with every `int` operation
wrapped to `w` bits: the cast `int(pulseIn(..))`, the subtractions, `abs`, and
the products `(..)*8`.  `RCmode` is this function whenever no operation
overflows. -/
def RCmodeInt (w : Nat) (s : State) (speedPulse steerPulse : Nat) : State :=
  let Speed : Int := wrapInt w (speedPulse : Int)
  let Steer : Int := wrapInt w (steerPulse : Int)
  let Speed := rcTimeout Speed
  let Steer := rcTimeout Steer
  let Speed := rcSnapInt w s.RCdeadband Speed
  let Steer := rcSnapInt w s.RCdeadband Steer
  let Steer := wrapInt w (Steer - 1500)
  let lmspeed := Int.tdiv (wrapInt w (wrapInt w (wrapInt w (Speed - Steer) - 1500) * 8)) 10
  let rmspeed := Int.tdiv (wrapInt w (wrapInt w (wrapInt w (Speed + Steer) - 1500) * 8)) 10
  let lmspeed := if lmspeed < -255 then -255 else lmspeed
  let lmspeed := if lmspeed > 255 then 255 else lmspeed
  let rmspeed := if rmspeed < -255 then -255 else rmspeed
  let rmspeed := if rmspeed > 255 then 255 else rmspeed
  Motors { s with lmspeed := lmspeed, rmspeed := rmspeed }

/-! ## Encoder tracker -/

/-- Lines 110-113 of `Encoders`: shift the stored levels and store the two
`digitalRead` results `lread` and `rread`. -/
def encRead (s : State) (lread rread : Bool) : State :=
  { s with
    lencold := s.lencnew
    rencold := s.rencnew
    lencnew := lread
    rencnew := rread }

/-- Lines 114-115: `if(lencold != lencnew) lmenc += lmspeed / abs(lmspeed);`.
`.error s` means the division was evaluated with divisor 0 in state `s`. -/
def encLeft (s : State) : Except State State :=
  if s.lencold != s.lencnew then
    match cdiv s.lmspeed (cabs s.lmspeed) with
    | some q => .ok { s with lmenc := s.lmenc + q }
    | none => .error s
  else .ok s

/-- Lines 116-117: `if(rencold != rencnew) rmenc += lmspeed / abs(lmspeed);`
(the source reads `lmspeed` here as well). -/
def encRight (s : State) : Except State State :=
  if s.rencold != s.rencnew then
    match cdiv s.lmspeed (cabs s.lmspeed) with
    | some q => .ok { s with rmenc := s.rmenc + q }
    | none => .error s
  else .ok s

/-- `ControllerInterface::Encoders` (lines 106-118).  `.ok s` is the state on
return; `.error s` is the state in which a division by zero was reached. -/
def Encoders (s : State) (lread rread : Bool) : Except State State :=
  match encLeft (encRead s lread rread) with
  | .ok s1 => encRight s1
  | .error e => .error e

/-- The state an outcome ends in, whether the call returned or faulted. -/
def lastState : Except State State → State
  | .ok s => s
  | .error s => s

/-! ## Impact detector -/

/-- Messages passed to `mNodeHandle->loginfo`. -/
inductive LogMsg where
  /-- "Impact Detected!" (line 36). -/
  | impactDetected
  /-- "Shutting down motors and servos..." (line 208). -/
  | shuttingDown
  /-- "Shutdown!" (line 222). -/
  | shutdown
  deriving DecidableEq

/-- The declaration of `magnitude` is in `LocalLibrary.h`, which is not among
the sources, so its numeric type is a parameter of `Accelerometer`: the type
`M`, the value stored by `magnitude = 0`, the value stored by
`magnitude = sqrt(n)` for an `int` expression `n`, and the test
`magnitude > sensitivity`. -/
structure MagModel where
  /-- Type of `magnitude`. -/
  M : Type
  /-- Value of `magnitude = 0`. -/
  zero : M
  /-- Value of `magnitude = sqrt(n)`. -/
  sqrt : Int → M
  /-- Test `magnitude > sensitivity`. -/
  gt : M → Int → Bool

/-- Reading of `MagModel` in which `magnitude` is an `int`: the square root is
truncated when it is stored. -/
def truncMag : MagModel :=
  { M := Int
    zero := 0
    sqrt := fun n => (Nat.sqrt n.toNat : Int)
    gt := fun k t => decide (k > t) }

/-- Modelled from the spec: the type of `magnitude` (declared in the absent
`LocalLibrary.h`) as the spec's "deltaMagnitude: non-negative real".  The real
number `√n` is represented exactly by its radicand `n`, and `√n > t` is decided
as `t < 0 ∨ t * t < n`. -/
def exactMag : MagModel :=
  { M := Nat
    zero := 0
    sqrt := fun n => n.toNat
    gt := fun n t => decide (t < 0 ∨ t * t < (n : Int)) }

/-- A `MagModel` in which a square root does not exceed a non-negative
threshold whose square bounds the radicand. -/
def MagModel.Sound (m : MagModel) : Prop :=
  ∀ n t : Int, 0 ≤ t → n ≤ t * t → m.gt (m.sqrt n) t = false

/-- Accelerometer members of `ControllerInterface` and the function-static
variables of `Accelerometer` (`oldx`, `oldy`, `oldz`, `vibration`). -/
structure AccelState (M : Type) where
  /-- `xaxis`: latest X reading. -/
  xaxis : Int
  /-- `yaxis`: latest Y reading. -/
  yaxis : Int
  /-- `zaxis`: latest Z reading. -/
  zaxis : Int
  /-- `deltx`. -/
  deltx : Int
  /-- `delty`. -/
  delty : Int
  /-- `deltz`. -/
  deltz : Int
  /-- `magnitude`. -/
  magnitude : M
  /-- `sensitivity`: impact threshold. -/
  sensitivity : Int
  /-- `devibrate`: length of the suppression window. -/
  devibrate : Int
  /-- Static `oldx`. -/
  oldx : Int
  /-- Static `oldy`. -/
  oldy : Int
  /-- Static `oldz`. -/
  oldz : Int
  /-- Static `vibration`: suppression countdown. -/
  vibration : Int
  deriving DecidableEq

/-- Arduino `sq(x)`, the macro `((x)*(x))`. -/
def sq (x : Int) : Int := x * x

/-- Lines 19-21: `vibration--; if(vibration < 0) vibration = 0;`. -/
def countdown (vibration : Int) : Int :=
  if vibration - 1 < 0 then 0 else vibration - 1

/-- `ControllerInterface::Accelerometer` (lines 11-47).  `rx`, `ry`, `rz` are
the three `analogRead` results; the second component lists the messages
logged by the call. -/
def Accelerometer (m : MagModel) (s : AccelState m.M) (rx ry rz : Int) :
    AccelState m.M × List LogMsg :=
  -- lines 15-25
  let s1 : AccelState m.M :=
    { s with
      oldx := s.xaxis
      oldy := s.yaxis
      oldz := s.zaxis
      vibration := countdown s.vibration
      xaxis := rx
      yaxis := ry
      zaxis := rz }
  if s1.vibration > 0 then (s1, [])
  else
    let deltx := s1.xaxis - s1.oldx
    let delty := s1.yaxis - s1.oldy
    let deltz := s1.zaxis - s1.oldz
    let magnitude := m.sqrt (sq deltx + sq delty + sq deltz)
    if m.gt magnitude s1.sensitivity then
      ({ s1 with
         deltx := deltx
         delty := delty
         deltz := deltz
         magnitude := magnitude
         vibration := s1.devibrate }, [LogMsg.impactDetected])
    else
      ({ s1 with
         deltx := 0
         delty := 0
         deltz := 0
         magnitude := m.zero }, [])

/-- A reading of the three accelerometer axes: the results of the three
`analogRead` calls of one call to `Accelerometer`. -/
abbrev Reading := Int × Int × Int

/-- The state after successive calls to `Accelerometer`, one per reading. -/
def accelRun (m : MagModel) (s : AccelState m.M) : List Reading → AccelState m.M
  | [] => s
  | r :: rs => accelRun m (Accelerometer m s r.1 r.2.1 r.2.2).1 rs

/-- Whether a call to `Accelerometer` logged "Impact Detected!". -/
def raisesImpact (m : MagModel) (s : AccelState m.M) (r : Reading) : Bool :=
  decide (LogMsg.impactDetected ∈ (Accelerometer m s r.1 r.2.1 r.2.2).2)

/-! ## Servo output manager -/

/-- `servopin[0..5]` as assigned by the constructor (lines 7-8); nothing else
in the source writes the array. -/
def servopin : Fin 6 → Nat := ![7, 8, 12, 13, 5, 6]

/-- The two pin modes the source passes to `pinMode`. -/
inductive PinMode where
  /-- `INPUT`. -/
  | input
  /-- `OUTPUT`. -/
  | output
  deriving DecidableEq

/-- Calls made by `Servos` on the `Servo` objects and on `pinMode`, in the
order they are made. -/
inductive ServoEvent where
  /-- `servo[i].attach(pin)`. -/
  | attach (i : Fin 6) (pin : Nat)
  /-- `servo[i].detach()`. -/
  | detach (i : Fin 6)
  /-- `pinMode(pin, INPUT)`. -/
  | pinModeInput (pin : Nat)
  /-- `servo[i].writeMicroseconds(us)`. -/
  | writeMicroseconds (i : Fin 6) (us : Int)
  deriving DecidableEq

/-- Servo members of `ControllerInterface` and the servo pins.

Modelled from the spec: the `Servo` class is an external library whose
declaration is not among the sources; following the spec's "capability that
attaches/detaches/positions a channel", `servo[i].attached()` is the flag
`attached i`, set by `attach` and cleared by `detach`. -/
structure ServoState where
  /-- `servopos[i]`: target of channel `i`. -/
  servopos : Fin 6 → Int
  /-- `servo[i].attached()`. -/
  attached : Fin 6 → Bool
  /-- Mode last set by `pinMode` on each pin, by pin number. -/
  pinmode : Nat → PinMode
  /-- Level last written by `digitalWrite` to each pin, by pin number. -/
  pinlevel : Nat → Bool

/-- Line 193: `if(servopos[i]!=0 && servo[i].attached()==0)
servo[i].attach(servopin[i]);`. -/
def servoAttach (s : ServoState) (i : Fin 6) : ServoState × List ServoEvent :=
  if s.servopos i ≠ 0 ∧ s.attached i = false then
    ({ s with attached := Function.update s.attached i true },
      [ServoEvent.attach i (servopin i)])
  else (s, [])

/-- Lines 194-198: `if(servopos[i]==0 && servo[i].attached()!=0)
{ servo[i].detach(); pinMode(servopin[i],INPUT); }`. -/
def servoDetach (s : ServoState) (i : Fin 6) : ServoState × List ServoEvent :=
  if s.servopos i = 0 ∧ s.attached i = true then
    ({ s with
       attached := Function.update s.attached i false
       pinmode := Function.update s.pinmode (servopin i) PinMode.input },
      [ServoEvent.detach i, ServoEvent.pinModeInput (servopin i)])
  else (s, [])

/-- Lines 200-201: `if(servopos[i]>0) servo[i].writeMicroseconds(servopos[i]);
if(servopos[i]<0) servo[i].writeMicroseconds(3000+servopos[i]);`. -/
def servoWrite (s : ServoState) (i : Fin 6) : List ServoEvent :=
  (if s.servopos i > 0 then [ServoEvent.writeMicroseconds i (s.servopos i)] else [])
    ++ (if s.servopos i < 0 then [ServoEvent.writeMicroseconds i (3000 + s.servopos i)] else [])

/-- One iteration of the loop of `Servos` (lines 193-201) for channel `i`:
the state after it and the calls it makes. -/
def servoIter (s : ServoState) (i : Fin 6) : ServoState × List ServoEvent :=
  let a := servoAttach s i
  let d := servoDetach a.1 i
  (d.1, a.2 ++ d.2 ++ servoWrite d.1 i)

/-- `ControllerInterface::Servos` (lines 189-203): the loop over
`i = 0 .. 5`, accumulating the calls made. -/
def Servos (s : ServoState) : ServoState × List ServoEvent :=
  (List.finRange 6).foldl
    (fun acc i => ((servoIter acc.1 i).1, acc.2 ++ (servoIter acc.1 i).2)) (s, [])

/-- The pulse widths commanded to channel `j` in a list of calls. -/
def writesOf (j : Fin 6) (evs : List ServoEvent) : List Int :=
  evs.filterMap fun e =>
    match e with
    | ServoEvent.writeMicroseconds i us => if i = j then some us else none
    | _ => none

/-! ## Diagnostic sequencer and shutdown -/

/-- Function-static variables of `DiagnosticMode` (line 66). -/
structure DiagState where
  /-- Static `mdir`: direction step. -/
  mdir : Int
  /-- Static `mpwm`: PWM level. -/
  mpwm : Int
  /-- Static `brk`: brake. -/
  brk : Int
  /-- Static `LED`: active LED index. -/
  LED : Int
  /-- Static `div`: divider of the LED chase. -/
  div : Int
  deriving DecidableEq

/-- The statics of `DiagnosticMode` before its first call: C++ zero-initialises
function-static `int`s. -/
def diagInit : DiagState :=
  { mdir := 0, mpwm := 0, brk := 0, LED := 0, div := 0 }

/-- The whole controller: motor and encoder state, servo state and the statics
of `DiagnosticMode`. -/
structure Controller where
  /-- Motor, RC and encoder part. -/
  core : State
  /-- Servo part and servo pins. -/
  servo : ServoState
  /-- Statics of `DiagnosticMode`. -/
  diag : DiagState

/-- Lines 67-82 of `DiagnosticMode` on its statics: first-call initialisation
of `mdir`, the ramp step, the reversal with brake at the limit, and the brake
release at level 0. -/
def diagRamp (d : DiagState) : DiagState :=
  -- lines 67-69
  let mdir := if d.mdir = 0 then 5 else d.mdir
  -- line 76
  let mpwm := d.mpwm + mdir
  -- lines 77-81
  let mdir2 := if mpwm < -250 ∨ mpwm > 250 then -mdir else mdir
  let brk := if mpwm < -250 ∨ mpwm > 250 then 1 else d.brk
  -- line 82
  let brk2 := if mpwm = 0 then 0 else brk
  { d with mdir := mdir2, mpwm := mpwm, brk := brk2 }

/-- Lines 90-97 of `DiagnosticMode` on its statics: the divider and the LED
index. -/
def diagChase (d : DiagState) : DiagState :=
  -- line 90
  let div := d.div + 1
  -- lines 91-95
  let LED := if div > 20 then d.LED + 1 else d.LED
  let div2 := if div > 20 then 0 else div
  -- line 97
  let LED2 := if LED > 5 then 0 else LED
  { d with LED := LED2, div := div2 }

/-- Lines 70-73: `pinMode(servopin[i],OUTPUT)` for `i = 0 .. 5`. -/
def pinsOutput (pinmode : Nat → PinMode) : Nat → PinMode :=
  (List.finRange 6).foldl (fun pm i => Function.update pm (servopin i) PinMode.output) pinmode

/-- Lines 98-101: `digitalWrite(servopin[i],LED==i)` for `i = 0 .. 5`. -/
def ledWrite (LED : Int) (pinlevel : Nat → Bool) : Nat → Bool :=
  (List.finRange 6).foldl
    (fun lv i => Function.update lv (servopin i) (decide (LED = ((i : Nat) : Int)))) pinlevel

/-- `ControllerInterface::DiagnosticMode` (lines 58-104), one tick.  The
final `delay(10)` only paces the loop and is not modelled. -/
def DiagnosticMode (c : Controller) : Controller :=
  let d1 := diagRamp c.diag
  let d2 := diagChase d1
  { core := Motors { c.core with
                     lmspeed := d1.mpwm
                     rmspeed := d1.mpwm
                     lmbrake := d1.brk
                     rmbrake := d1.brk }
    servo := { c.servo with
               pinmode := if c.diag.mdir = 0 then pinsOutput c.servo.pinmode
                          else c.servo.pinmode
               pinlevel := ledWrite d2.LED c.servo.pinlevel }
    diag := d2 }

/-- The controller after `n` ticks of `DiagnosticMode`. -/
def diagAfter (c : Controller) (n : Nat) : Controller := Nat.iterate DiagnosticMode n c

/-- `ControllerInterface::Shutdown` (lines 205-223): the controller afterwards,
the two messages logged, and the calls made by `Servos`.  Lines 214-219 assign
0 to every `servopos[i]`, `i = 0 .. 5`. -/
def Shutdown (c : Controller) : Controller × List LogMsg × List ServoEvent :=
  let sv := Servos { c.servo with servopos := fun _ => 0 }
  ({ core := Motors { c.core with lmspeed := 0, rmspeed := 0 }
     servo := sv.1
     diag := c.diag },
   [LogMsg.shuttingDown, LogMsg.shutdown], sv.2)

/-- One tick of `DiagnosticMode` on its statics alone. -/
def diagTick (d : DiagState) : DiagState := diagChase (diagRamp d)

/-- What holds of the statics of `DiagnosticMode` after every tick: the step
is 5 or -5, the level is a multiple of 5 within [-255, 255] that has already
turned round at either end, and the brake is 0 or 1, being 1 exactly while
the step points against the level. -/
def RampInv (d : DiagState) : Prop :=
  (d.mdir = 5 ∨ d.mdir = -5) ∧ d.mpwm % 5 = 0 ∧ -255 ≤ d.mpwm ∧ d.mpwm ≤ 255 ∧
  (d.mpwm = 255 → d.mdir = -5) ∧ (d.mpwm = -255 → d.mdir = 5) ∧
  (d.brk = 0 ∨ d.brk = 1) ∧
  (d.brk = 1 ↔ ((0 < d.mpwm ∧ d.mdir < 0) ∨ (d.mpwm < 0 ∧ 0 < d.mdir)))

/-! ## Specification-side definitions -/

/-- Clamp of `x` to `[lo, hi]`. -/
def clampTo (x lo hi : Int) : Int := max lo (min x hi)

/-- A state used to evaluate the code on concrete inputs: deadband 35,
everything else zero or low. -/
def sample : State :=
  { RCdeadband := 35, lmspeed := 0, rmspeed := 0, lmbrake := 0, rmbrake := 0,
    lmenc := 0, rmenc := 0,
    lmbrkpin := false, lmdirpin := false, lmpwmpin := 0,
    rmbrkpin := false, rmdirpin := false, rmpwmpin := 0,
    lencold := false, lencnew := false, rencold := false, rencnew := false }

/-- An accelerometer state at rest: previous reading (512, 512, 512),
threshold 50, window 50, countdown 0. -/
def accelSample : AccelState Int :=
  { xaxis := 512, yaxis := 512, zaxis := 512, deltx := 0, delty := 0, deltz := 0,
    magnitude := 0, sensitivity := 50, devibrate := 50,
    oldx := 512, oldy := 512, oldz := 512, vibration := 0 }

/-- The state `accelSample` with a suppression window of length 2. -/
def shortWindow : AccelState Int :=
  { accelSample with devibrate := 2 }

/-- A state inside the suppression window: countdown 5, holding the
magnitude 77 of the impact that opened the window. -/
def insideWindow : AccelState Int :=
  { accelSample with vibration := 5, magnitude := 77 }

/-- A servo state: targets (1500, 0, -1200, 0, 0, 7), channels 1, 2, 4 and 5
attached, every pin in mode `OUTPUT` and low. -/
def servoSample : ServoState :=
  { servopos := ![1500, 0, -1200, 0, 0, 7]
    attached := ![false, true, true, false, true, true]
    pinmode := fun _ => PinMode.output
    pinlevel := fun _ => false }

/-- A controller before the first diagnostic tick. -/
def ctlSample : Controller :=
  { core := sample, servo := servoSample, diag := diagInit }

theorem cabs_nonneg (x : Int) : 0 ≤ cabs x := by
  unfold cabs
  split_ifs <;> omega

theorem cabs_eq_zero_iff (x : Int) : cabs x = 0 ↔ x = 0 := by
  unfold cabs
  split_ifs <;> omega

/-- The two clamp statements of `RCmode` are a clamp to `[-255, 255]`. -/
theorem clamp_stmts (v : Int) :
    (if (if v < -255 then -255 else v) > 255 then 255 else (if v < -255 then -255 else v))
      = clampTo v (-255) 255 := by
  unfold clampTo
  split_ifs <;> omega

theorem RCmode_lmspeed (s : State) (p q : Nat) :
    (RCmode s p q).lmspeed =
      clampTo (Int.tdiv ((rcSnap s.RCdeadband (rcTimeout p)
        - (rcSnap s.RCdeadband (rcTimeout q) - 1500) - 1500) * 8) 10) (-255) 255 := by
  simp only [RCmode, Motors]
  exact clamp_stmts _

theorem RCmode_rmspeed (s : State) (p q : Nat) :
    (RCmode s p q).rmspeed =
      clampTo (Int.tdiv ((rcSnap s.RCdeadband (rcTimeout p)
        + (rcSnap s.RCdeadband (rcTimeout q) - 1500) - 1500) * 8) 10) (-255) 255 := by
  simp only [RCmode, Motors]
  exact clamp_stmts _

theorem clampTo_bounds (v : Int) : -255 ≤ clampTo v (-255) 255 ∧ clampTo v (-255) 255 ≤ 255 := by
  unfold clampTo
  omega

/-- A channel that reads 1500, or reads within the deadband, is 1500 after
the timeout and deadband statements. -/
theorem rcSnap_centre (d : Int) (p : Nat)
    (h : p = 1500 ∨ |(p : Int) - 1500| < d) : rcSnap d (rcTimeout p) = 1500 := by
  unfold rcSnap rcTimeout cabs
  rcases h with h | h
  · subst h
    split_ifs <;> omega
  · rw [abs_lt] at h
    split_ifs <;> omega

/-! ## RC input decoder: claims -/

/-- C1: for every state, deadband and pair of pulse widths, the speeds
committed by `RCmode` lie in `[-255, 255]` (and so do the PWM duties written
to the two motor PWM pins). -/
theorem RCmode_speeds_in_range (s : State) (speedPulse steerPulse : Nat) :
    (-255 ≤ (RCmode s speedPulse steerPulse).lmspeed ∧
      (RCmode s speedPulse steerPulse).lmspeed ≤ 255) ∧
    (-255 ≤ (RCmode s speedPulse steerPulse).rmspeed ∧
      (RCmode s speedPulse steerPulse).rmspeed ≤ 255) ∧
    (0 ≤ (RCmode s speedPulse steerPulse).lmpwmpin ∧
      (RCmode s speedPulse steerPulse).lmpwmpin ≤ 255) ∧
    (0 ≤ (RCmode s speedPulse steerPulse).rmpwmpin ∧
      (RCmode s speedPulse steerPulse).rmpwmpin ≤ 255) := by
  have hl := clampTo_bounds (Int.tdiv ((rcSnap s.RCdeadband (rcTimeout speedPulse)
        - (rcSnap s.RCdeadband (rcTimeout steerPulse) - 1500) - 1500) * 8) 10)
  have hr := clampTo_bounds (Int.tdiv ((rcSnap s.RCdeadband (rcTimeout speedPulse)
        + (rcSnap s.RCdeadband (rcTimeout steerPulse) - 1500) - 1500) * 8) 10)
  rw [← RCmode_lmspeed] at hl
  rw [← RCmode_rmspeed] at hr
  have hlp : (RCmode s speedPulse steerPulse).lmpwmpin
      = cabs (RCmode s speedPulse steerPulse).lmspeed := by
    simp only [RCmode, Motors]
  have hrp : (RCmode s speedPulse steerPulse).rmpwmpin
      = cabs (RCmode s speedPulse steerPulse).rmspeed := by
    simp only [RCmode, Motors]
  refine ⟨hl, hr, ?_, ?_⟩
  · rw [hlp]
    unfold cabs
    split_ifs <;> omega
  · rw [hrp]
    unfold cabs
    split_ifs <;> omega

/-- C2: a pulse read of 0 (the `pulseIn` timeout value) is treated as 1500:
`RCmode` ends in the same state for speed pulse 0 as for 1500, and for steer
pulse 0 as for 1500, whatever the other pulse is. -/
theorem RCmode_timeout_is_centre (s : State) :
    (∀ steerPulse : Nat, RCmode s 0 steerPulse = RCmode s 1500 steerPulse) ∧
    (∀ speedPulse : Nat, RCmode s speedPulse 0 = RCmode s speedPulse 1500) := by
  constructor
  · intro t
    simp [RCmode, rcTimeout]
  · intro t
    simp [RCmode, rcTimeout]

/-- C3: when each channel reads exactly 1500 or within the deadband
(`|value - 1500| < RCdeadband`), `RCmode` commits `lmspeed = rmspeed = 0`. -/
theorem RCmode_deadband_zero (s : State) (speedPulse steerPulse : Nat)
    (hs : speedPulse = 1500 ∨ |(speedPulse : Int) - 1500| < s.RCdeadband)
    (ht : steerPulse = 1500 ∨ |(steerPulse : Int) - 1500| < s.RCdeadband) :
    (RCmode s speedPulse steerPulse).lmspeed = 0 ∧
    (RCmode s speedPulse steerPulse).rmspeed = 0 := by
  rw [RCmode_lmspeed, RCmode_rmspeed, rcSnap_centre _ _ hs, rcSnap_centre _ _ ht]
  constructor <;> decide

/-- Witness of C3: speed pulse 1520 (within the deadband 35) and steer pulse
1500 give zero speeds. -/
theorem RCmode_deadband_zero_witness :
    ((RCmode sample 1520 1479).lmspeed = 0 ∧ (RCmode sample 1520 1479).rmspeed = 0) ∧
    ((RCmode sample 1500 1500).lmspeed = 0 ∧ (RCmode sample 1500 1500).rmspeed = 0) :=
  ⟨RCmode_deadband_zero sample 1520 1479 (Or.inr (by decide)) (Or.inr (by decide)),
   RCmode_deadband_zero sample 1500 1500 (Or.inl rfl) (Or.inl rfl)⟩

/-- C4 as stated fails: with the default deadband 35, speed pulse 1535 and
steer pulse 1500 do not give `lmspeed = rmspeed = 0`. -/
theorem RCmode_deadband_edge_not_zero :
    ¬ ((RCmode (ControllerInterface sample) 1535 1500).lmspeed = 0 ∧
       (RCmode (ControllerInterface sample) 1535 1500).rmspeed = 0) := by
  decide

/-- C4 amended: the deadband test is strict.  With the default deadband 35,
speed pulse 1535 (= 1500 + deadband) with steer 1500 is not snapped and
`RCmode` commits `lmspeed = rmspeed = 28`; speed pulse 1534
(= 1500 + deadband - 1) is snapped and `RCmode` commits `lmspeed = rmspeed = 0`. -/
theorem RCmode_deadband_edge (s0 : State) :
    ((RCmode (ControllerInterface s0) 1535 1500).lmspeed = 28 ∧
     (RCmode (ControllerInterface s0) 1535 1500).rmspeed = 28) ∧
    ((RCmode (ControllerInterface s0) 1534 1500).lmspeed = 0 ∧
     (RCmode (ControllerInterface s0) 1534 1500).rmspeed = 0) := by
  simp only [RCmode_lmspeed, RCmode_rmspeed, ControllerInterface]
  decide

/-- The clamp statements come last, so the committed speeds lie in
`[-255, 255]` over an `int` of any width as well. -/
theorem RCmodeInt_speeds_in_range (w : Nat) (s : State) (p q : Nat) :
    (-255 ≤ (RCmodeInt w s p q).lmspeed ∧ (RCmodeInt w s p q).lmspeed ≤ 255) ∧
    (-255 ≤ (RCmodeInt w s p q).rmspeed ∧ (RCmodeInt w s p q).rmspeed ≤ 255) := by
  simp only [RCmodeInt, Motors]
  refine ⟨⟨?_, ?_⟩, ⟨?_, ?_⟩⟩ <;> split_ifs <;> omega

/-- C6: `Motors` sets a side's encoder count to 0 when that side's brake is
engaged (`> 0`) and its speed is exactly 0, leaves it unchanged otherwise,
decides the two sides independently, and changes none of `lmspeed`, `rmspeed`,
`lmbrake`, `rmbrake`. -/
theorem Motors_encoder_reset_and_frame (s : State) :
    (Motors s).lmenc = (if s.lmbrake > 0 ∧ s.lmspeed = 0 then 0 else s.lmenc) ∧
    (Motors s).rmenc = (if s.rmbrake > 0 ∧ s.rmspeed = 0 then 0 else s.rmenc) ∧
    (Motors s).lmspeed = s.lmspeed ∧ (Motors s).rmspeed = s.rmspeed ∧
    (Motors s).lmbrake = s.lmbrake ∧ (Motors s).rmbrake = s.rmbrake :=
  ⟨rfl, rfl, rfl, rfl, rfl, rfl⟩

/-! ## Encoder tracker: claims -/

/-- The sign extraction `lmspeed / abs(lmspeed)` has a value exactly when
`lmspeed` is not 0. -/
theorem cdiv_sign (v : Int) :
    cdiv v (cabs v) = if v = 0 then none else some (Int.tdiv v (cabs v)) := by
  unfold cdiv
  by_cases h : v = 0
  · simp [h, cabs]
  · have hc : ¬ cabs v = 0 := fun hz => h ((cabs_eq_zero_iff v).mp hz)
    simp [h, hc]

/-- `Encoders` reaches a division by zero exactly when `lmspeed` is 0 and a
level transition is seen on either channel. -/
theorem Encoders_faults_iff (s : State) (lread rread : Bool) :
    (∃ e, Encoders s lread rread = .error e) ↔
      (s.lmspeed = 0 ∧ (lread ≠ s.lencnew ∨ rread ≠ s.rencnew)) := by
  obtain ⟨d, ls, rs, lb, rb, le, re, p1, p2, p3, p4, p5, p6, lo, ln, ro, rn⟩ := s
  by_cases h0 : ls = 0
  · cases lread <;> cases rread <;> cases ln <;> cases rn <;>
      simp [Encoders, encLeft, encRight, encRead, cdiv_sign, h0]
  · cases lread <;> cases rread <;> cases ln <;> cases rn <;>
      simp [Encoders, encLeft, encRight, encRead, cdiv_sign, h0]

/-- C7: if the level read for a side in this call to `Encoders` equals the
level stored by the previous call, that side's tick count is the same in the
state the call ends in, for every commanded speed; and when neither level
changed the call returns, having only shifted the stored levels. -/
theorem Encoders_same_level_keeps_count (s : State) (lread rread : Bool) :
    (lread = s.lencnew → (lastState (Encoders s lread rread)).lmenc = s.lmenc) ∧
    (rread = s.rencnew → (lastState (Encoders s lread rread)).rmenc = s.rmenc) ∧
    (lread = s.lencnew → rread = s.rencnew →
      Encoders s lread rread = .ok (encRead s lread rread)) := by
  obtain ⟨d, ls, rs, lb, rb, le, re, p1, p2, p3, p4, p5, p6, lo, ln, ro, rn⟩ := s
  refine ⟨?_, ?_, ?_⟩
  · intro h
    subst h
    by_cases h0 : ls = 0 <;> cases lread <;> cases rread <;> cases rn <;>
      simp [Encoders, encLeft, encRight, encRead, cdiv_sign, lastState, h0]
  · intro h
    subst h
    by_cases h0 : ls = 0 <;> cases lread <;> cases rread <;> cases ln <;>
      simp [Encoders, encLeft, encRight, encRead, cdiv_sign, lastState, h0]
  · intro hl hr
    subst hl
    subst hr
    simp [Encoders, encLeft, encRight, encRead]

/-- Witness of C7 at commanded speed 0: the left level is unchanged while the
right one changes, and the left level is unchanged on both sides. -/
theorem Encoders_same_level_keeps_count_witness :
    (lastState (Encoders sample false true)).lmenc = sample.lmenc ∧
    Encoders sample false false = .ok (encRead sample false false) :=
  ⟨(Encoders_same_level_keeps_count sample false true).1 rfl,
   (Encoders_same_level_keeps_count sample false false).2.2 rfl rfl⟩

/-- C8, the code at a failing input: after `RCmode` with pulses (1500, 1375)
the commanded speeds are `lmspeed = 100`, `rmspeed = -100`; a transition on the
right encoder channel then advances `rmenc` by `+1`, the sign of `lmspeed`,
not by `-1`, the sign of `rmspeed`. -/
theorem Encoders_right_count_follows_left_speed :
    (RCmode sample 1500 1375).lmspeed = 100 ∧
    (RCmode sample 1500 1375).rmspeed = -100 ∧
    Encoders (RCmode sample 1500 1375) false true =
      .ok { encRead (RCmode sample 1500 1375) false true with
            rmenc := (RCmode sample 1500 1375).rmenc + 1 } := by
  refine ⟨by decide, by decide, ?_⟩
  rfl

/-- C9, the code at a failing input: after `RCmode` with both sticks centred
the commanded speed is `lmspeed = 0`; a transition on the left encoder channel
then makes `Encoders` evaluate `lmspeed / abs(lmspeed)` with divisor 0. -/
theorem Encoders_divides_by_zero :
    (RCmode sample 1500 1500).lmspeed = 0 ∧
    cabs (RCmode sample 1500 1500).lmspeed = 0 ∧
    Encoders (RCmode sample 1500 1500) true false =
      .error (encRead (RCmode sample 1500 1500) true false) := by
  refine ⟨by decide, by decide, ?_⟩
  rfl

/-! ## Impact detector: claims -/

theorem countdown_nonneg (v : Int) : 0 ≤ countdown v := by
  unfold countdown
  split_ifs <;> omega

theorem truncMag_sound : truncMag.Sound := by
  intro n t ht hn
  have h1 : n.toNat < (t.toNat + 1) * (t.toNat + 1) := by
    have h2 : (n.toNat : Int) ≤ t * t := by
      rcases le_total 0 n with h | h
      · rw [Int.toNat_of_nonneg h]
        exact hn
      · rw [Int.toNat_eq_zero.mpr h]
        exact_mod_cast mul_self_nonneg t
    have h3 : (t.toNat : Int) = t := Int.toNat_of_nonneg ht
    have h4 : (n.toNat : Int) < ((t.toNat + 1) * (t.toNat + 1) : Nat) := by
      push_cast
      rw [h3]
      nlinarith
    exact_mod_cast h4
  have h5 : Nat.sqrt n.toNat < t.toNat + 1 := Nat.sqrt_lt.mpr h1
  have h6 : (Nat.sqrt n.toNat : Int) ≤ t := by
    have : (Nat.sqrt n.toNat : Int) ≤ (t.toNat : Int) := by exact_mod_cast Nat.lt_succ_iff.mp h5
    rwa [Int.toNat_of_nonneg ht] at this
  show decide ((Nat.sqrt n.toNat : Int) > t) = false
  simpa using h6

theorem exactMag_sound : exactMag.Sound := by
  intro n t ht hn
  have h2 : (n.toNat : Int) ≤ t * t := by
    rcases le_total 0 n with h | h
    · rw [Int.toNat_of_nonneg h]
      exact hn
    · rw [Int.toNat_eq_zero.mpr h]
      exact_mod_cast mul_self_nonneg t
  show decide (t < 0 ∨ t * t < (n.toNat : Int)) = false
  simp only [decide_eq_false_iff_not, not_or, not_lt]
  exact ⟨ht, h2⟩

/-- C10: for every call to `Accelerometer` that is not suppressed (the
countdown is 0 after the decrement) and whose delta magnitude does not exceed
`sensitivity` (the test `magnitude > sensitivity` fails; in particular when
`dx^2 + dy^2 + dz^2 <= sensitivity^2` with `sensitivity >= 0`), no impact is
logged, the countdown stays 0, and `deltx`, `delty`, `deltz` and `magnitude`
are all 0 afterwards. -/
theorem Accelerometer_below_threshold_resets (m : MagModel) (s : AccelState m.M)
    (rx ry rz : Int)
    (hvib : countdown s.vibration = 0)
    (hmag : m.gt (m.sqrt (sq (rx - s.xaxis) + sq (ry - s.yaxis) + sq (rz - s.zaxis)))
              s.sensitivity = false ∨
            (m.Sound ∧ 0 ≤ s.sensitivity ∧
              sq (rx - s.xaxis) + sq (ry - s.yaxis) + sq (rz - s.zaxis)
                ≤ s.sensitivity * s.sensitivity)) :
    (Accelerometer m s rx ry rz).2 = [] ∧
    (Accelerometer m s rx ry rz).1.vibration = 0 ∧
    (Accelerometer m s rx ry rz).1.deltx = 0 ∧
    (Accelerometer m s rx ry rz).1.delty = 0 ∧
    (Accelerometer m s rx ry rz).1.deltz = 0 ∧
    (Accelerometer m s rx ry rz).1.magnitude = m.zero := by
  have hgt : m.gt (m.sqrt (sq (rx - s.xaxis) + sq (ry - s.yaxis) + sq (rz - s.zaxis)))
      s.sensitivity = false := by
    rcases hmag with h | ⟨hs, h0, hle⟩
    · exact h
    · exact hs _ _ h0 hle
  simp [Accelerometer, hvib, hgt]

/-- Witness of C10: from rest at (512, 512, 512) with threshold 50, the
reading (512, 542, 552) has `dx^2 + dy^2 + dz^2 = 2500 <= 50^2`. -/
theorem Accelerometer_below_threshold_resets_witness :
    (Accelerometer truncMag accelSample 512 542 552).2 = [] ∧
    (Accelerometer truncMag accelSample 512 542 552).1.vibration = 0 ∧
    (Accelerometer truncMag accelSample 512 542 552).1.deltx = 0 ∧
    (Accelerometer truncMag accelSample 512 542 552).1.delty = 0 ∧
    (Accelerometer truncMag accelSample 512 542 552).1.deltz = 0 ∧
    (Accelerometer truncMag accelSample 512 542 552).1.magnitude = truncMag.zero :=
  Accelerometer_below_threshold_resets truncMag accelSample 512 542 552 (by decide)
    (Or.inr ⟨truncMag_sound, by decide, by decide⟩)

/-- A suppressed call (countdown still positive after the decrement) returns
at line 27: it logs nothing, lowers the countdown by one and leaves `deltx`,
`delty`, `deltz`, `magnitude`, `sensitivity` and `devibrate` as they were. -/
theorem Accelerometer_suppressed (m : MagModel) (s : AccelState m.M) (rx ry rz : Int)
    (h : 2 ≤ s.vibration) :
    Accelerometer m s rx ry rz =
      ({ s with
         oldx := s.xaxis
         oldy := s.yaxis
         oldz := s.zaxis
         vibration := s.vibration - 1
         xaxis := rx
         yaxis := ry
         zaxis := rz }, []) := by
  have hc : countdown s.vibration = s.vibration - 1 := by
    unfold countdown
    split_ifs <;> omega
  have hpos : s.vibration - 1 > 0 := by omega
  simp [Accelerometer, hc, hpos]

/-- A call that is not suppressed logs an impact exactly when the test
`magnitude > sensitivity` succeeds. -/
theorem raisesImpact_unsuppressed (m : MagModel) (s : AccelState m.M) (r : Reading)
    (h : s.vibration ≤ 1) :
    raisesImpact m s r =
      m.gt (m.sqrt (sq (r.1 - s.xaxis) + sq (r.2.1 - s.yaxis) + sq (r.2.2 - s.zaxis)))
        s.sensitivity := by
  have hc : countdown s.vibration = 0 := by
    unfold countdown
    split_ifs <;> omega
  unfold raisesImpact
  cases hg : m.gt (m.sqrt (sq (r.1 - s.xaxis) + sq (r.2.1 - s.yaxis) + sq (r.2.2 - s.zaxis)))
      s.sensitivity <;> simp [Accelerometer, hc, hg]

/-- A call that logs an impact leaves the countdown at `devibrate`. -/
theorem Accelerometer_impact_state (m : MagModel) (s : AccelState m.M) (r : Reading)
    (h : raisesImpact m s r = true) :
    (Accelerometer m s r.1 r.2.1 r.2.2).1.vibration = s.devibrate ∧
    (Accelerometer m s r.1 r.2.1 r.2.2).1.devibrate = s.devibrate ∧
    (Accelerometer m s r.1 r.2.1 r.2.2).1.sensitivity = s.sensitivity := by
  unfold raisesImpact at h
  by_cases hv : countdown s.vibration > 0
  · simp [Accelerometer, hv] at h
  · cases hg : m.gt (m.sqrt (sq (r.1 - s.xaxis) + sq (r.2.1 - s.yaxis) + sq (r.2.2 - s.zaxis)))
        s.sensitivity
    · simp [Accelerometer, hv, hg] at h
    · simp [Accelerometer, hv, hg]

/-- While more countdown remains than readings are fed, every call is
suppressed: the countdown drops by one per call and nothing else that decides
an impact changes. -/
theorem accelRun_suppressed (m : MagModel) (rs : List Reading) :
    ∀ s : AccelState m.M, (rs.length : Int) < s.vibration →
      (accelRun m s rs).vibration = s.vibration - rs.length ∧
      (accelRun m s rs).sensitivity = s.sensitivity ∧
      (accelRun m s rs).devibrate = s.devibrate := by
  induction rs with
  | nil =>
    intro s _
    simp [accelRun]
  | cons r rs ih =>
    intro s h
    have hlen : ((r :: rs).length : Int) = (rs.length : Int) + 1 := by
      simp
    rw [hlen] at h
    have h2 : 2 ≤ s.vibration := by omega
    have hstep := Accelerometer_suppressed m s r.1 r.2.1 r.2.2 h2
    have ih1 := ih (Accelerometer m s r.1 r.2.1 r.2.2).1 (by rw [hstep]; show _ < s.vibration - 1; omega)
    rw [hstep] at ih1
    simp only [accelRun]
    rw [hstep, hlen]
    refine ⟨?_, ih1.2.1, ih1.2.2⟩
    rw [ih1.1]
    show s.vibration - 1 - (rs.length : Int) = s.vibration - ((rs.length : Int) + 1)
    omega

/-- Every call stores the three readings in `xaxis`, `yaxis`, `zaxis`. -/
theorem Accelerometer_axes (m : MagModel) (s : AccelState m.M) (rx ry rz : Int) :
    (Accelerometer m s rx ry rz).1.xaxis = rx ∧
    (Accelerometer m s rx ry rz).1.yaxis = ry ∧
    (Accelerometer m s rx ry rz).1.zaxis = rz := by
  by_cases hv : countdown s.vibration > 0
  · simp [Accelerometer, hv]
  · cases hg : m.gt (m.sqrt (sq (rx - s.xaxis) + sq (ry - s.yaxis) + sq (rz - s.zaxis)))
        s.sensitivity <;> simp [Accelerometer, hv, hg]

/-- A call that logs an impact stores the square root in `magnitude`. -/
theorem Accelerometer_impact_magnitude (m : MagModel) (s : AccelState m.M) (r : Reading)
    (h : raisesImpact m s r = true) :
    (Accelerometer m s r.1 r.2.1 r.2.2).1.magnitude =
      m.sqrt (sq (r.1 - s.xaxis) + sq (r.2.1 - s.yaxis) + sq (r.2.2 - s.zaxis)) := by
  unfold raisesImpact at h
  by_cases hv : countdown s.vibration > 0
  · simp [Accelerometer, hv] at h
  · cases hg : m.gt (m.sqrt (sq (r.1 - s.xaxis) + sq (r.2.1 - s.yaxis) + sq (r.2.2 - s.zaxis)))
        s.sensitivity
    · simp [Accelerometer, hv, hg] at h
    · simp [Accelerometer, hv, hg]

/-- In the `int` reading the test `magnitude > sensitivity` succeeds as soon
as the radicand reaches `(sensitivity + 1)^2`. -/
theorem truncMag_exceeds (n t : Int) (ht : 0 ≤ t) (h : (t + 1) * (t + 1) ≤ n) :
    truncMag.gt (truncMag.sqrt n) t = true := by
  have hn : 0 ≤ n := le_trans (mul_self_nonneg (t + 1)) h
  have h1 : (t.toNat + 1) * (t.toNat + 1) ≤ n.toNat := by
    have h2 : (((t.toNat + 1) * (t.toNat + 1) : Nat) : Int) ≤ (n.toNat : Int) := by
      push_cast
      rw [Int.toNat_of_nonneg ht, Int.toNat_of_nonneg hn]
      exact h
    exact_mod_cast h2
  have h3 : t.toNat + 1 ≤ Nat.sqrt n.toNat := Nat.le_sqrt.mpr h1
  have h4 : t < (Nat.sqrt n.toNat : Int) := by
    have : ((t.toNat + 1 : Nat) : Int) ≤ (Nat.sqrt n.toNat : Int) := by exact_mod_cast h3
    push_cast at this
    rw [Int.toNat_of_nonneg ht] at this
    omega
  show decide ((Nat.sqrt n.toNat : Int) > t) = true
  simpa using h4

/-- From rest at (512, 512, 512) with threshold 50, the reading
(512, 512, 612) raises an impact, whatever the window length. -/
theorem raisesImpact_sample (s : AccelState Int)
    (hx : s.xaxis = 512) (hy : s.yaxis = 512) (hz : s.zaxis = 512)
    (hv : s.vibration ≤ 1) (ht : s.sensitivity = 50) :
    raisesImpact truncMag s (512, 512, 612) = true := by
  rw [raisesImpact_unsuppressed truncMag s _ hv, hx, hy, hz, ht]
  exact truncMag_exceeds _ _ (by decide) (by decide)

/-- After an impact with `devibrate = N >= 1` and `N - 1` further calls, the
next call is not suppressed. -/
theorem window_end (m : MagModel) (s : AccelState m.M) (r0 : Reading)
    (himp : raisesImpact m s r0 = true)
    (rs : List Reading) (r : Reading) (hlen : (rs.length : Int) + 1 = s.devibrate) :
    raisesImpact m (accelRun m (Accelerometer m s r0.1 r0.2.1 r0.2.2).1 rs) r =
      m.gt (m.sqrt
        (sq (r.1 - (accelRun m (Accelerometer m s r0.1 r0.2.1 r0.2.2).1 rs).xaxis)
          + sq (r.2.1 - (accelRun m (Accelerometer m s r0.1 r0.2.1 r0.2.2).1 rs).yaxis)
          + sq (r.2.2 - (accelRun m (Accelerometer m s r0.1 r0.2.1 r0.2.2).1 rs).zaxis)))
        s.sensitivity := by
  obtain ⟨hv, _, hsens⟩ := Accelerometer_impact_state m s r0 himp
  have hrun := accelRun_suppressed m rs (Accelerometer m s r0.1 r0.2.1 r0.2.2).1
    (by rw [hv]; omega)
  have h1 : (accelRun m (Accelerometer m s r0.1 r0.2.1 r0.2.2).1 rs).vibration ≤ 1 := by
    rw [hrun.1, hv]
    omega
  rw [raisesImpact_unsuppressed m _ r h1, hrun.2.1, hsens]

theorem accelRun_nil (m : MagModel) (s : AccelState m.M) : accelRun m s [] = s := rfl

theorem accelRun_cons (m : MagModel) (s : AccelState m.M) (r : Reading) (rs : List Reading) :
    accelRun m s (r :: rs) = accelRun m (Accelerometer m s r.1 r.2.1 r.2.2).1 rs := rfl

/-- C11 as stated fails: with `devibrate = 2`, a call raises an impact, and
the second call after it (one of the next `N = 2` calls) raises a new impact. -/
theorem Accelerometer_window_shorter_than_devibrate :
    shortWindow.devibrate = 2 ∧
    raisesImpact truncMag shortWindow (512, 512, 612) = true ∧
    raisesImpact truncMag
      (accelRun truncMag (Accelerometer truncMag shortWindow 512 512 612).1 [(512, 512, 612)])
      (512, 512, 512) = true := by
  have himp : raisesImpact truncMag shortWindow (512, 512, 612) = true :=
    raisesImpact_sample shortWindow rfl rfl rfl (by decide) rfl
  refine ⟨rfl, himp, ?_⟩
  have hend := window_end truncMag shortWindow (512, 512, 612) himp
    [(512, 512, 612)] (512, 512, 512) (by decide)
  have hax := Accelerometer_axes truncMag
    (Accelerometer truncMag shortWindow 512 512 612).1 512 512 612
  rw [accelRun_cons, accelRun_nil] at hend
  rw [hax.1, hax.2.1, hax.2.2] at hend
  rw [accelRun_cons, accelRun_nil, hend]
  exact truncMag_exceeds _ _ (by decide) (by decide)

/-- C11 amended: if a call to `Accelerometer` raises an impact with
`devibrate = N >= 1`, then whatever the following readings are, none of the
next `N - 1` calls raises an impact, and the `N`-th call after the event is
not suppressed: it raises an impact exactly when its delta magnitude against
the previous reading exceeds `sensitivity`. -/
theorem Accelerometer_suppression_window (m : MagModel) (s : AccelState m.M) (r0 : Reading)
    (himp : raisesImpact m s r0 = true) :
    (∀ (rs : List Reading) (r : Reading), (rs.length : Int) + 1 < s.devibrate →
      raisesImpact m (accelRun m (Accelerometer m s r0.1 r0.2.1 r0.2.2).1 rs) r = false) ∧
    (∀ (rs : List Reading) (r : Reading), (rs.length : Int) + 1 = s.devibrate →
      raisesImpact m (accelRun m (Accelerometer m s r0.1 r0.2.1 r0.2.2).1 rs) r =
        m.gt (m.sqrt
          (sq (r.1 - (accelRun m (Accelerometer m s r0.1 r0.2.1 r0.2.2).1 rs).xaxis)
            + sq (r.2.1 - (accelRun m (Accelerometer m s r0.1 r0.2.1 r0.2.2).1 rs).yaxis)
            + sq (r.2.2 - (accelRun m (Accelerometer m s r0.1 r0.2.1 r0.2.2).1 rs).zaxis)))
          s.sensitivity) := by
  obtain ⟨hv, _, hsens⟩ := Accelerometer_impact_state m s r0 himp
  constructor
  · intro rs r hlen
    have hrun := accelRun_suppressed m rs (Accelerometer m s r0.1 r0.2.1 r0.2.2).1
      (by rw [hv]; omega)
    have h2 : 2 ≤ (accelRun m (Accelerometer m s r0.1 r0.2.1 r0.2.2).1 rs).vibration := by
      rw [hrun.1, hv]
      omega
    unfold raisesImpact
    rw [Accelerometer_suppressed m _ r.1 r.2.1 r.2.2 h2]
    simp
  · intro rs r hlen
    exact window_end m s r0 himp rs r hlen

/-- Witness of C11 amended, with `devibrate = 2`: after the impact, the first
following call raises no impact although its delta magnitude is 100. -/
theorem Accelerometer_suppression_window_witness :
    raisesImpact truncMag
      (accelRun truncMag (Accelerometer truncMag shortWindow 512 512 612).1 [])
      (512, 512, 512) = false :=
  (Accelerometer_suppression_window truncMag shortWindow (512, 512, 612)
    (raisesImpact_sample shortWindow rfl rfl rfl (by decide) rfl)).1
    [] (512, 512, 512) (by decide)

/-- In the `int` reading the stored square root of a perfect square `k * k`
is `k`. -/
theorem truncMag_sqrt_eq (n : Int) (k : Nat) (h : n = (k : Int) * (k : Int)) :
    truncMag.sqrt n = (k : Int) := by
  subst h
  have h1 : ((k : Int) * (k : Int)).toNat = k * k := by
    have : ((k : Int) * (k : Int)) = ((k * k : Nat) : Int) := by push_cast; rfl
    rw [this, Int.toNat_natCast]
  show ((Nat.sqrt ((k : Int) * (k : Int)).toNat : Nat) : Int) = (k : Int)
  rw [h1, Nat.sqrt_eq]

/-- A call made with countdown at least 2 is inside the suppression window
and leaves `magnitude` as it was. -/
theorem Accelerometer_inside_window (m : MagModel) (s : AccelState m.M) (rx ry rz : Int)
    (h : 2 ≤ s.vibration) :
    countdown s.vibration > 0 ∧ (Accelerometer m s rx ry rz).1.magnitude = s.magnitude := by
  constructor
  · unfold countdown
    split_ifs <;> omega
  · rw [Accelerometer_suppressed m s rx ry rz h]

/-- C12 as stated fails: the impact raised from rest by the reading
(512, 512, 612) stores magnitude 100; the next call is inside the suppression
window (countdown 49 after the decrement) and leaves `magnitude` at 100, not 0. -/
theorem Accelerometer_suppressed_keeps_magnitude_example :
    countdown (Accelerometer truncMag accelSample 512 512 612).1.vibration > 0 ∧
    (Accelerometer truncMag (Accelerometer truncMag accelSample 512 512 612).1
      512 512 512).1.magnitude = ((100 : Nat) : Int) ∧
    ((100 : Nat) : Int) ≠ truncMag.zero :=
  have himp : raisesImpact truncMag accelSample (512, 512, 612) = true :=
    raisesImpact_sample accelSample rfl rfl rfl (by decide) rfl
  have hv : (Accelerometer truncMag accelSample 512 512 612).1.vibration = accelSample.devibrate :=
    (Accelerometer_impact_state truncMag accelSample (512, 512, 612) himp).1
  have hm : (Accelerometer truncMag accelSample 512 512 612).1.magnitude = ((100 : Nat) : Int) :=
    (Accelerometer_impact_magnitude truncMag accelSample (512, 512, 612) himp).trans
      (truncMag_sqrt_eq _ 100 (by decide))
  have h2 : 2 ≤ (Accelerometer truncMag accelSample 512 512 612).1.vibration :=
    le_of_le_of_eq (by decide : (2 : Int) ≤ accelSample.devibrate) hv.symm
  have hw := Accelerometer_inside_window truncMag
    (Accelerometer truncMag accelSample 512 512 612).1 512 512 512 h2
  ⟨hw.1, hw.2.trans hm, by decide⟩

/-- C12 amended: after every call to `Accelerometer` during which the
suppression window is active (countdown positive after the decrement), no
impact is flagged and `magnitude`, `deltx`, `delty` and `deltz` are exactly
what they were before the call; they are not reset. -/
theorem Accelerometer_suppressed_keeps_magnitude (m : MagModel) (s : AccelState m.M)
    (rx ry rz : Int) (hvib : countdown s.vibration > 0) :
    (Accelerometer m s rx ry rz).2 = [] ∧
    (Accelerometer m s rx ry rz).1.magnitude = s.magnitude ∧
    (Accelerometer m s rx ry rz).1.deltx = s.deltx ∧
    (Accelerometer m s rx ry rz).1.delty = s.delty ∧
    (Accelerometer m s rx ry rz).1.deltz = s.deltz ∧
    (Accelerometer m s rx ry rz).1.vibration = countdown s.vibration := by
  simp [Accelerometer, hvib]

/-- Witness of C12 amended: a state inside the window (countdown 5) holding
magnitude 77 keeps it. -/
theorem Accelerometer_suppressed_keeps_magnitude_witness :
    (Accelerometer truncMag insideWindow 512 512 700).1.magnitude = insideWindow.magnitude :=
  (Accelerometer_suppressed_keeps_magnitude truncMag insideWindow 512 512 700 (by decide)).2.1

/-! ## Servo output manager: claims -/

theorem servopin_injective : Function.Injective servopin := by
  unfold Function.Injective
  decide

theorem servoIter_servopos (s : ServoState) (i : Fin 6) :
    (servoIter s i).1.servopos = s.servopos := by
  simp only [servoIter, servoAttach, servoDetach]
  split_ifs <;> rfl

theorem servoIter_pinlevel (s : ServoState) (i : Fin 6) :
    (servoIter s i).1.pinlevel = s.pinlevel := by
  simp only [servoIter, servoAttach, servoDetach]
  split_ifs <;> rfl

/-- After the iteration for channel `i`, channel `i` is attached exactly when
its target is nonzero; the other channels are as before. -/
theorem servoIter_attached (s : ServoState) (i j : Fin 6) :
    (servoIter s i).1.attached j =
      if j = i then decide (s.servopos i ≠ 0) else s.attached j := by
  by_cases hp : s.servopos i = 0 <;> cases ha : s.attached i <;> by_cases hj : j = i <;>
    simp [servoIter, servoAttach, servoDetach, hp, ha, hj, Function.update_apply]

/-- The iteration for channel `i` sets the mode of its pin to `INPUT` when it
detaches, and changes no other pin mode. -/
theorem servoIter_pinmode (s : ServoState) (i : Fin 6) (p : Nat) :
    (servoIter s i).1.pinmode p =
      if p = servopin i ∧ s.servopos i = 0 ∧ s.attached i = true then PinMode.input
      else s.pinmode p := by
  by_cases hp : s.servopos i = 0 <;> cases ha : s.attached i <;> by_cases hj : p = servopin i <;>
    simp [servoIter, servoAttach, servoDetach, hp, ha, hj, Function.update_apply]

/-- The calls made by the iteration for channel `i`, in terms of the target and
the attach flag of channel `i` on entry. -/
theorem servoIter_events (s : ServoState) (i : Fin 6) :
    (servoIter s i).2 =
      (if s.servopos i ≠ 0 ∧ s.attached i = false
        then [ServoEvent.attach i (servopin i)] else [])
      ++ (if s.servopos i = 0 ∧ s.attached i = true
        then [ServoEvent.detach i, ServoEvent.pinModeInput (servopin i)] else [])
      ++ (if s.servopos i > 0 then [ServoEvent.writeMicroseconds i (s.servopos i)] else [])
      ++ (if s.servopos i < 0
        then [ServoEvent.writeMicroseconds i (3000 + s.servopos i)] else []) := by
  by_cases hp : s.servopos i = 0 <;> cases ha : s.attached i <;>
    simp [servoIter, servoAttach, servoDetach, servoWrite, hp, ha]

theorem servoIter_events_congr (s t : ServoState) (i : Fin 6)
    (h1 : t.servopos i = s.servopos i) (h2 : t.attached i = s.attached i) :
    (servoIter t i).2 = (servoIter s i).2 := by
  rw [servoIter_events, servoIter_events, h1, h2]

/-- The loop of `Servos` over a duplicate-free list of channels `l`, started
in a state `t` that agrees with `s` on the targets and on the attach flags of
the channels of `l`. -/
theorem servoLoop_spec (s : ServoState) (l : List (Fin 6)) :
    ∀ (t : ServoState) (ev : List ServoEvent), l.Nodup → t.servopos = s.servopos →
      (∀ i ∈ l, t.attached i = s.attached i) →
      (l.foldl (fun acc i => ((servoIter acc.1 i).1, acc.2 ++ (servoIter acc.1 i).2)) (t, ev)).2
          = ev ++ l.flatMap (fun i => (servoIter s i).2) ∧
      (l.foldl (fun acc i => ((servoIter acc.1 i).1, acc.2 ++ (servoIter acc.1 i).2))
          (t, ev)).1.servopos = s.servopos ∧
      (l.foldl (fun acc i => ((servoIter acc.1 i).1, acc.2 ++ (servoIter acc.1 i).2))
          (t, ev)).1.pinlevel = t.pinlevel ∧
      (∀ j, (l.foldl (fun acc i => ((servoIter acc.1 i).1, acc.2 ++ (servoIter acc.1 i).2))
          (t, ev)).1.attached j
          = if j ∈ l then decide (s.servopos j ≠ 0) else t.attached j) := by
  induction l with
  | nil =>
    intro t ev _ hpos _
    simp [hpos]
  | cons i l ih =>
    intro t ev hnd hpos hatt
    have hi : i ∉ l := (List.nodup_cons.mp hnd).1
    have hl : l.Nodup := (List.nodup_cons.mp hnd).2
    have hpos1 : (servoIter t i).1.servopos = s.servopos := by
      rw [servoIter_servopos, hpos]
    have hatt1 : ∀ k ∈ l, (servoIter t i).1.attached k = s.attached k := by
      intro k hk
      have hki : k ≠ i := fun h => hi (h ▸ hk)
      rw [servoIter_attached, if_neg hki]
      exact hatt k (List.mem_cons_of_mem _ hk)
    obtain ⟨h1, h2, h3, h4⟩ := ih (servoIter t i).1 (ev ++ (servoIter t i).2) hl hpos1 hatt1
    have hev : (servoIter t i).2 = (servoIter s i).2 :=
      servoIter_events_congr s t i (by rw [hpos]) (hatt i (List.mem_cons_self _ _))
    simp only [List.foldl_cons]
    refine ⟨?_, h2, ?_, ?_⟩
    · rw [h1, hev, List.flatMap_cons, List.append_assoc]
    · rw [h3, servoIter_pinlevel]
    · intro j
      rw [h4 j, servoIter_attached]
      by_cases hji : j = i
      · subst hji
        simp [hi, hpos]
      · simp [hji, List.mem_cons]

/-- The calls made by `Servos` are those of the six iterations, each as if
run on the entry state; the targets are unchanged and every channel ends
attached exactly when its target is nonzero. -/
theorem Servos_spec (s : ServoState) :
    (Servos s).2 = (List.finRange 6).flatMap (fun i => (servoIter s i).2) ∧
    (Servos s).1.servopos = s.servopos ∧
    (Servos s).1.pinlevel = s.pinlevel ∧
    (∀ j, (Servos s).1.attached j = decide (s.servopos j ≠ 0)) := by
  obtain ⟨h1, h2, h3, h4⟩ :=
    servoLoop_spec s (List.finRange 6) s [] (List.nodup_finRange 6) rfl (fun _ _ => rfl)
  refine ⟨?_, h2, h3, ?_⟩
  · simpa [Servos] using h1
  · intro j
    have := h4 j
    simpa [Servos, List.mem_finRange] using this

/-- The pin modes after the loop of `Servos`: `INPUT` on the pin of every
channel of `l` that is detached, unchanged elsewhere. -/
theorem servoLoop_pinmode (s : ServoState) (l : List (Fin 6)) :
    ∀ (t : ServoState) (ev : List ServoEvent), l.Nodup → t.servopos = s.servopos →
      (∀ i ∈ l, t.attached i = s.attached i) →
      ∀ p, (l.foldl (fun acc i => ((servoIter acc.1 i).1, acc.2 ++ (servoIter acc.1 i).2))
          (t, ev)).1.pinmode p
          = if ∃ i ∈ l, p = servopin i ∧ s.servopos i = 0 ∧ s.attached i = true
            then PinMode.input else t.pinmode p := by
  induction l with
  | nil =>
    intro t ev _ _ _ p
    simp
  | cons i l ih =>
    intro t ev hnd hpos hatt p
    have hi : i ∉ l := (List.nodup_cons.mp hnd).1
    have hl : l.Nodup := (List.nodup_cons.mp hnd).2
    have hpos1 : (servoIter t i).1.servopos = s.servopos := by
      rw [servoIter_servopos, hpos]
    have hatt1 : ∀ k ∈ l, (servoIter t i).1.attached k = s.attached k := by
      intro k hk
      have hki : k ≠ i := fun h => hi (h ▸ hk)
      rw [servoIter_attached, if_neg hki]
      exact hatt k (List.mem_cons_of_mem _ hk)
    have h := ih (servoIter t i).1 (ev ++ (servoIter t i).2) hl hpos1 hatt1 p
    simp only [List.foldl_cons]
    rw [h, servoIter_pinmode, hpos, hatt i (List.mem_cons_self _ _)]
    by_cases hc : ∃ k ∈ l, p = servopin k ∧ s.servopos k = 0 ∧ s.attached k = true
    · have hc2 : ∃ k ∈ i :: l, p = servopin k ∧ s.servopos k = 0 ∧ s.attached k = true := by
        obtain ⟨k, hk, hrest⟩ := hc
        exact ⟨k, List.mem_cons_of_mem _ hk, hrest⟩
      rw [if_pos hc, if_pos hc2]
    · rw [if_neg hc]
      by_cases hi2 : p = servopin i ∧ s.servopos i = 0 ∧ s.attached i = true
      · rw [if_pos hi2, if_pos ⟨i, List.mem_cons_self _ _, hi2⟩]
      · have hc2 : ¬ ∃ k ∈ i :: l, p = servopin k ∧ s.servopos k = 0 ∧ s.attached k = true := by
          rintro ⟨k, hk, hrest⟩
          rcases List.mem_cons.mp hk with hki | hkl
          · exact hi2 (hki ▸ hrest)
          · exact hc ⟨k, hkl, hrest⟩
        rw [if_neg hi2, if_neg hc2]

theorem Servos_pinmode (s : ServoState) (p : Nat) :
    (Servos s).1.pinmode p =
      if ∃ i, p = servopin i ∧ s.servopos i = 0 ∧ s.attached i = true
      then PinMode.input else s.pinmode p := by
  have h := servoLoop_pinmode s (List.finRange 6) s [] (List.nodup_finRange 6) rfl
    (fun _ _ => rfl) p
  simpa [Servos, List.mem_finRange] using h

theorem detach_mem_servoIter (s : ServoState) (a i : Fin 6) :
    ServoEvent.detach i ∈ (servoIter s a).2 ↔
      (a = i ∧ s.servopos a = 0 ∧ s.attached a = true) := by
  rw [servoIter_events]
  by_cases hp : s.servopos a = 0 <;> cases ha : s.attached a <;> by_cases hai : a = i <;>
    simp [hp, ha, hai, eq_comm]

theorem pinModeInput_mem_servoIter (s : ServoState) (a : Fin 6) (p : Nat) :
    ServoEvent.pinModeInput p ∈ (servoIter s a).2 ↔
      (p = servopin a ∧ s.servopos a = 0 ∧ s.attached a = true) := by
  rw [servoIter_events]
  by_cases hp : s.servopos a = 0 <;> cases ha : s.attached a <;> by_cases hai : p = servopin a <;>
    simp [hp, ha, hai]

/-- The pulse widths an iteration commands to channel `j`: those of lines
200-201 when it is the iteration for `j`, none otherwise. -/
theorem writesOf_servoIter (s : ServoState) (a j : Fin 6) :
    writesOf j (servoIter s a).2 =
      if a = j then
        (if s.servopos j > 0 then [s.servopos j]
         else if s.servopos j < 0 then [3000 + s.servopos j] else [])
      else [] := by
  rw [servoIter_events]
  by_cases haj : a = j
  · subst haj
    by_cases hp : s.servopos a = 0
    · cases ha : s.attached a <;> simp [writesOf, hp, ha]
    · rcases lt_or_gt_of_ne hp with hlt | hgt
      · have hng : ¬ s.servopos a > 0 := by omega
        cases ha : s.attached a <;> simp [writesOf, hp, ha, hlt, hng]
      · have hnl : ¬ s.servopos a < 0 := by omega
        cases ha : s.attached a <;> simp [writesOf, hp, ha, hgt, hnl]
  · by_cases hp : s.servopos a = 0
    · cases ha : s.attached a <;> simp [writesOf, hp, ha, haj]
    · rcases lt_or_gt_of_ne hp with hlt | hgt
      · have hng : ¬ s.servopos a > 0 := by omega
        cases ha : s.attached a <;> simp [writesOf, hp, ha, hlt, hng, haj]
      · have hnl : ¬ s.servopos a < 0 := by omega
        cases ha : s.attached a <;> simp [writesOf, hp, ha, hgt, hnl, haj]

theorem flatMap_only (l : List (Fin 6)) (j : Fin 6) (c : List Int) (hnd : l.Nodup) :
    l.flatMap (fun a => if a = j then c else []) = if j ∈ l then c else [] := by
  induction l with
  | nil => simp
  | cons a l ih =>
    have ha : a ∉ l := (List.nodup_cons.mp hnd).1
    rw [List.flatMap_cons, ih (List.nodup_cons.mp hnd).2]
    by_cases haj : a = j
    · subst haj
      simp [ha]
    · have hja : ¬ j = a := fun h => haj h.symm
      simp [haj, hja, List.mem_cons]

/-- C13: after one call to `Servos`, channel `i` is attached exactly when
`servopos[i] != 0`; `detach` is called on a channel, and `pinMode(.., INPUT)`
on its pin (which leaves that pin's mode `INPUT`), exactly when its target is
0 and it was attached before the call; the targets are unchanged. -/
theorem Servos_attach_state (s : ServoState) :
    (∀ i, (Servos s).1.attached i = true ↔ s.servopos i ≠ 0) ∧
    (∀ i, ServoEvent.detach i ∈ (Servos s).2 ↔
      (s.servopos i = 0 ∧ s.attached i = true)) ∧
    (∀ i, ServoEvent.pinModeInput (servopin i) ∈ (Servos s).2 ↔
      (s.servopos i = 0 ∧ s.attached i = true)) ∧
    (∀ i, s.servopos i = 0 → s.attached i = true →
      (Servos s).1.pinmode (servopin i) = PinMode.input) ∧
    (Servos s).1.servopos = s.servopos := by
  obtain ⟨hev, hpos, _, hatt⟩ := Servos_spec s
  refine ⟨?_, ?_, ?_, ?_, hpos⟩
  · intro i
    rw [hatt i]
    simp
  · intro i
    rw [hev, List.mem_flatMap]
    constructor
    · rintro ⟨a, _, ha⟩
      obtain ⟨hai, h1, h2⟩ := (detach_mem_servoIter s a i).mp ha
      subst hai
      exact ⟨h1, h2⟩
    · rintro ⟨h1, h2⟩
      exact ⟨i, List.mem_finRange i, (detach_mem_servoIter s i i).mpr ⟨rfl, h1, h2⟩⟩
  · intro i
    rw [hev, List.mem_flatMap]
    constructor
    · rintro ⟨a, _, ha⟩
      obtain ⟨hai, h1, h2⟩ := (pinModeInput_mem_servoIter s a (servopin i)).mp ha
      have := servopin_injective hai
      subst this
      exact ⟨h1, h2⟩
    · rintro ⟨h1, h2⟩
      exact ⟨i, List.mem_finRange i,
        (pinModeInput_mem_servoIter s i (servopin i)).mpr ⟨rfl, h1, h2⟩⟩
  · intro i h1 h2
    rw [Servos_pinmode, if_pos ⟨i, rfl, h1, h2⟩]

/-- C14: for every channel `i`, `Servos` commands exactly one pulse width when
the target is nonzero and none when it is 0: a target `t > 0` commands `t`, a
target `t < 0` commands `3000 + t`; for a target in `[-2000, 0)` the commanded
value lies in `[1000, 3000)`. -/
theorem Servos_commanded_pulse (s : ServoState) (i : Fin 6) :
    writesOf i (Servos s).2 =
      (if s.servopos i > 0 then [s.servopos i]
       else if s.servopos i < 0 then [3000 + s.servopos i] else []) ∧
    (-2000 ≤ s.servopos i → s.servopos i < 0 →
      ∃ us, writesOf i (Servos s).2 = [us] ∧ 1000 ≤ us ∧ us < 3000) := by
  have hw : writesOf i (Servos s).2 =
      (if s.servopos i > 0 then [s.servopos i]
       else if s.servopos i < 0 then [3000 + s.servopos i] else []) := by
    rw [(Servos_spec s).1]
    unfold writesOf
    rw [List.filterMap_flatMap]
    have hfun : (fun a => List.filterMap
        (fun e => match e with
          | ServoEvent.writeMicroseconds k us => if k = i then some us else none
          | _ => none) (servoIter s a).2)
        = fun a => if a = i then
            (if s.servopos i > 0 then [s.servopos i]
             else if s.servopos i < 0 then [3000 + s.servopos i] else [])
          else [] := by
      funext a
      exact writesOf_servoIter s a i
    rw [hfun, flatMap_only _ _ _ (List.nodup_finRange 6), if_pos (List.mem_finRange i)]
  refine ⟨hw, ?_⟩
  intro hlo hneg
  refine ⟨3000 + s.servopos i, ?_, by omega, by omega⟩
  rw [hw, if_neg (by omega), if_pos hneg]

/-- Witness of C14: a target of -1200 on channel 2 commands the single pulse
width 1800. -/
theorem Servos_commanded_pulse_witness :
    ∃ us, writesOf 2 (Servos servoSample).2 = [us] ∧ 1000 ≤ us ∧ us < 3000 :=
  (Servos_commanded_pulse servoSample 2).2 (by decide) (by decide)

/-- Witness of C13: in `servoSample` channel 1 has target 0 and is attached,
so its pin ends in mode `INPUT`. -/
theorem Servos_attach_state_witness :
    (Servos servoSample).1.pinmode (servopin 1) = PinMode.input :=
  (Servos_attach_state servoSample).2.2.2.1 1 (by decide) (by decide)

/-! ## Diagnostic sequencer: claims -/

theorem DiagnosticMode_diag (c : Controller) :
    (DiagnosticMode c).diag = diagTick c.diag := rfl

/-- The statics evolve on their own: after `n` ticks they are the `n`-th
iterate of `diagTick`. -/
theorem iterate_diag (c : Controller) (n : Nat) :
    (Nat.iterate DiagnosticMode n c).diag = Nat.iterate diagTick n c.diag := by
  induction n with
  | zero => rfl
  | succ k ih =>
    rw [Function.iterate_succ_apply', Function.iterate_succ_apply', DiagnosticMode_diag, ih]

/-- The motor command committed by a tick is the level and brake of the
statics after that tick, identically on both sides. -/
theorem DiagnosticMode_core (c : Controller) :
    (DiagnosticMode c).core.lmspeed = (DiagnosticMode c).diag.mpwm ∧
    (DiagnosticMode c).core.rmspeed = (DiagnosticMode c).diag.mpwm ∧
    (DiagnosticMode c).core.lmbrake = (DiagnosticMode c).diag.brk ∧
    (DiagnosticMode c).core.rmbrake = (DiagnosticMode c).diag.brk :=
  ⟨rfl, rfl, rfl, rfl⟩

theorem iterate_core (c : Controller) (n : Nat) (hn : 1 ≤ n) :
    (Nat.iterate DiagnosticMode n c).core.lmspeed = (Nat.iterate DiagnosticMode n c).diag.mpwm ∧
    (Nat.iterate DiagnosticMode n c).core.rmspeed = (Nat.iterate DiagnosticMode n c).diag.mpwm ∧
    (Nat.iterate DiagnosticMode n c).core.lmbrake = (Nat.iterate DiagnosticMode n c).diag.brk ∧
    (Nat.iterate DiagnosticMode n c).core.rmbrake = (Nat.iterate DiagnosticMode n c).diag.brk := by
  obtain ⟨k, rfl⟩ : ∃ k, n = k + 1 := ⟨n - 1, by omega⟩
  rw [Function.iterate_succ_apply']
  exact DiagnosticMode_core _

theorem RampInv_step (d : DiagState)
    (h : (d.mdir = 0 ∧ d.mpwm = 0 ∧ d.brk = 0) ∨ RampInv d) : RampInv (diagTick d) := by
  simp only [RampInv, diagTick, diagChase, diagRamp] at h ⊢
  rcases h with ⟨h1, h2, h3⟩ | ⟨h1, h2, h3, h4, h5, h6, h7, h8⟩
  · rw [h1, h2, h3]
    decide
  · rcases h1 with h1 | h1 <;> rw [h1] at h5 h6 h8 ⊢ <;> split_ifs <;> first | contradiction | omega

theorem RampInv_iterate (n : Nat) : RampInv (Nat.iterate diagTick (n + 1) diagInit) := by
  induction n with
  | zero => exact RampInv_step diagInit (Or.inl ⟨rfl, rfl, rfl⟩)
  | succ k ih =>
    rw [Function.iterate_succ_apply']
    exact RampInv_step _ (Or.inr ih)

/-- The brake after a tick: set at the limit, cleared at level 0, otherwise
as before the tick. -/
theorem diagTick_brk (d : DiagState) :
    (diagTick d).brk =
      if (diagTick d).mpwm < -250 ∨ (diagTick d).mpwm > 250 then 1
      else if (diagTick d).mpwm = 0 then 0 else d.brk := by
  simp only [diagTick, diagChase, diagRamp]
  split_ifs <;> first | rfl | omega

theorem chase_iterate (n : Nat) :
    (Nat.iterate diagTick n diagInit).div = ((n % 21 : Nat) : Int) ∧
    (Nat.iterate diagTick n diagInit).LED = ((n / 21 % 6 : Nat) : Int) := by
  induction n with
  | zero => exact ⟨rfl, rfl⟩
  | succ k ih =>
    rw [Function.iterate_succ_apply']
    obtain ⟨h1, h2⟩ := ih
    simp only [diagTick, diagChase, diagRamp]
    rw [h1, h2]
    constructor <;> split_ifs <;> omega

/-- After the loop of lines 98-101 the pin of channel `j` is high exactly when
`LED == j`. -/
theorem ledWrite_pin (LED : Int) (lv : Nat → Bool) (j : Fin 6) :
    ledWrite LED lv (servopin j) = decide (LED = ((j : Nat) : Int)) := by
  have key : ∀ (l : List (Fin 6)) (lv : Nat → Bool),
      (l.foldl (fun lv i => Function.update lv (servopin i) (decide (LED = ((i : Nat) : Int))))
        lv) (servopin j)
      = if j ∈ l then decide (LED = ((j : Nat) : Int)) else lv (servopin j) := by
    intro l
    induction l with
    | nil =>
      intro lv
      simp
    | cons i l ih =>
      intro lv
      rw [List.foldl_cons, ih]
      by_cases hjl : j ∈ l
      · simp [hjl]
      · by_cases hji : j = i
        · subst hji
          simp [hjl]
        · have hpin : servopin j ≠ servopin i := fun h => hji (servopin_injective h)
          simp [hjl, hji, Function.update_noteq hpin]
  unfold ledWrite
  rw [key, if_pos (List.mem_finRange j)]

theorem diagAfter_succ (c : Controller) (n : Nat) :
    diagAfter c (n + 1) = DiagnosticMode (diagAfter c n) :=
  Function.iterate_succ_apply' DiagnosticMode n c

theorem diagAfter_diag (c : Controller) (h0 : c.diag = diagInit) (n : Nat) :
    (diagAfter c n).diag = Nat.iterate diagTick n diagInit := by
  unfold diagAfter
  rw [iterate_diag, h0]

/-- For a sequence of statics produced by successive ticks from a released
brake, the brake is engaged after tick `n` exactly when some tick `k <= n`
passed the limit and the level has not been 0 at any tick after `k` up to
`n`. -/
theorem brake_history (d : Nat → DiagState) (h0 : (d 0).brk = 0)
    (hs : ∀ k, d (k + 1) = diagTick (d k)) (n : Nat) :
    0 < (d n).brk ↔
      ∃ k, 1 ≤ k ∧ k ≤ n ∧ ((d k).mpwm < -250 ∨ (d k).mpwm > 250) ∧
        ∀ j, k < j → j ≤ n → (d j).mpwm ≠ 0 := by
  induction n with
  | zero =>
    constructor
    · intro h
      omega
    · rintro ⟨k, hk1, hk2, _⟩
      omega
  | succ m ih =>
    have hstep : (d (m + 1)).brk =
        if (d (m + 1)).mpwm < -250 ∨ (d (m + 1)).mpwm > 250 then 1
        else if (d (m + 1)).mpwm = 0 then 0 else (d m).brk := by
      rw [hs m]
      exact diagTick_brk (d m)
    constructor
    · intro hb
      by_cases hover : (d (m + 1)).mpwm < -250 ∨ (d (m + 1)).mpwm > 250
      · exact ⟨m + 1, by omega, le_refl _, hover, fun j hj1 hj2 => by omega⟩
      · have hnz : (d (m + 1)).mpwm ≠ 0 := by
          intro hz
          rw [hstep, if_neg hover, if_pos hz] at hb
          omega
        have hbm : 0 < (d m).brk := by
          rw [hstep, if_neg hover, if_neg hnz] at hb
          exact hb
        obtain ⟨k, hk1, hk2, hk3, hk4⟩ := ih.mp hbm
        refine ⟨k, hk1, by omega, hk3, fun j hj1 hj2 => ?_⟩
        rcases Nat.lt_or_ge j (m + 1) with h | h
        · exact hk4 j hj1 (by omega)
        · have hj : j = m + 1 := by omega
          rw [hj]
          exact hnz
    · rintro ⟨k, hk1, hk2, hk3, hk4⟩
      rcases Nat.lt_or_ge k (m + 1) with h | h
      · have hnz : (d (m + 1)).mpwm ≠ 0 := hk4 (m + 1) h le_rfl
        have hbm : 0 < (d m).brk :=
          ih.mpr ⟨k, hk1, by omega, hk3, fun j a b => hk4 j a (by omega)⟩
        rw [hstep]
        split_ifs
        · omega
        · exact hbm
      · have hk : k = m + 1 := by omega
        rw [hk] at hk3
        rw [hstep, if_pos hk3]
        omega

/-- C15: starting from the initial diagnostic state, after any number
`n >= 1` of `DiagnosticMode` ticks the committed level satisfies
`lmspeed = rmspeed`, is a multiple of 5, and `|lmspeed| <= 255`. -/
theorem Diagnostic_level_bounded (c : Controller) (h0 : c.diag = diagInit) (n : Nat)
    (hn : 1 ≤ n) :
    (diagAfter c n).core.lmspeed = (diagAfter c n).core.rmspeed ∧
    (5 : Int) ∣ (diagAfter c n).core.lmspeed ∧
    |(diagAfter c n).core.lmspeed| ≤ 255 := by
  obtain ⟨hl, hr, _, _⟩ := iterate_core c n hn
  have hd := diagAfter_diag c h0 n
  obtain ⟨k, rfl⟩ : ∃ k, n = k + 1 := ⟨n - 1, by omega⟩
  have hinv := RampInv_iterate k
  rw [← hd] at hinv
  obtain ⟨_, h5, hlo, hhi, _⟩ := hinv
  change (diagAfter c (k + 1)).core.lmspeed = (diagAfter c (k + 1)).diag.mpwm at hl
  change (diagAfter c (k + 1)).core.rmspeed = (diagAfter c (k + 1)).diag.mpwm at hr
  refine ⟨by rw [hl, hr], ?_, ?_⟩
  · rw [hl]
    exact Int.dvd_of_emod_eq_zero h5
  · rw [hl]
    exact abs_le.mpr ⟨hlo, hhi⟩

/-- Witness of C15 after 51 ticks from `ctlSample` (the tick on which the
level reaches 255). -/
theorem Diagnostic_level_bounded_witness :
    (diagAfter ctlSample 51).core.lmspeed = (diagAfter ctlSample 51).core.rmspeed ∧
    (5 : Int) ∣ (diagAfter ctlSample 51).core.lmspeed ∧
    |(diagAfter ctlSample 51).core.lmspeed| ≤ 255 :=
  Diagnostic_level_bounded ctlSample rfl 51 (by decide)

/-- C16: starting from the initial diagnostic state, after every tick the
brake is the same on both sides and equals the static `brk` (0 or 1); it is
engaged exactly when some earlier-or-current tick `k` passed the limit of 250 in magnitude
and the level has not been exactly 0 on any tick after `k`; equivalently,
exactly when the level is nonzero and the direction step has the opposite sign
to the level. -/
theorem Diagnostic_brake (c : Controller) (h0 : c.diag = diagInit) (n : Nat) :
    (1 ≤ n →
      (diagAfter c n).core.lmbrake = (diagAfter c n).diag.brk ∧
      (diagAfter c n).core.rmbrake = (diagAfter c n).diag.brk ∧
      (diagAfter c n).core.lmspeed = (diagAfter c n).diag.mpwm ∧
      (diagAfter c n).core.lmbrkpin = decide (0 < (diagAfter c n).diag.brk) ∧
      (diagAfter c n).core.rmbrkpin = decide (0 < (diagAfter c n).diag.brk)) ∧
    ((diagAfter c n).diag.brk = 0 ∨ (diagAfter c n).diag.brk = 1) ∧
    (0 < (diagAfter c n).diag.brk ↔
      ∃ k, 1 ≤ k ∧ k ≤ n ∧
        ((diagAfter c k).diag.mpwm < -250 ∨ (diagAfter c k).diag.mpwm > 250) ∧
        ∀ j, k < j → j ≤ n → (diagAfter c j).diag.mpwm ≠ 0) ∧
    (0 < (diagAfter c n).diag.brk ↔
      ((diagAfter c n).diag.mpwm ≠ 0 ∧
        ((0 < (diagAfter c n).diag.mpwm ∧ (diagAfter c n).diag.mdir < 0) ∨
         ((diagAfter c n).diag.mpwm < 0 ∧ 0 < (diagAfter c n).diag.mdir)))) := by
  have hhist := brake_history (fun k => (diagAfter c k).diag)
    (by show (diagAfter c 0).diag.brk = 0
        rw [diagAfter_diag c h0 0]
        rfl)
    (fun k => by
      show (diagAfter c (k + 1)).diag = diagTick (diagAfter c k).diag
      rw [diagAfter_succ, DiagnosticMode_diag]) n
  have hd := diagAfter_diag c h0 n
  refine ⟨?_, ?_, hhist, ?_⟩
  · intro hn
    obtain ⟨k, rfl⟩ : ∃ k, n = k + 1 := ⟨n - 1, by omega⟩
    rw [diagAfter_succ]
    exact ⟨rfl, rfl, rfl, rfl, rfl⟩
  · rcases Nat.eq_zero_or_pos n with hz | hp
    · subst hz
      left
      rw [hd]
      rfl
    · obtain ⟨k, rfl⟩ : ∃ k, n = k + 1 := ⟨n - 1, by omega⟩
      have hinv := RampInv_iterate k
      rw [← hd] at hinv
      exact hinv.2.2.2.2.2.2.1
  · rcases Nat.eq_zero_or_pos n with hz | hp
    · subst hz
      rw [hd]
      decide
    · obtain ⟨k, rfl⟩ : ∃ k, n = k + 1 := ⟨n - 1, by omega⟩
      have hinv := RampInv_iterate k
      rw [← hd] at hinv
      obtain ⟨_, _, _, _, _, _, h7, h8⟩ := hinv
      omega

/-- Witness of C16 after 51 ticks from `ctlSample`: both brake flags equal
the static `brk`. -/
theorem Diagnostic_brake_witness :
    (diagAfter ctlSample 51).core.lmbrake = (diagAfter ctlSample 51).diag.brk ∧
    (diagAfter ctlSample 51).core.rmbrake = (diagAfter ctlSample 51).diag.brk :=
  ⟨((Diagnostic_brake ctlSample rfl 51).1 (by decide)).1,
   ((Diagnostic_brake ctlSample rfl 51).1 (by decide)).2.1⟩

/-- C17: starting from the initial diagnostic state, after `n` ticks the
divider is `n mod 21` and the active LED index is `(n div 21) mod 6`; after
every tick the pin of channel `i` is high exactly when `i` is the active LED
index, so exactly one of the six servo pins is high. -/
theorem Diagnostic_led_chase (c : Controller) (h0 : c.diag = diagInit) (n : Nat) :
    (diagAfter c n).diag.div = ((n % 21 : Nat) : Int) ∧
    (diagAfter c n).diag.LED = ((n / 21 % 6 : Nat) : Int) ∧
    (1 ≤ n →
      (∀ i : Fin 6, (diagAfter c n).servo.pinlevel (servopin i) = true ↔
        ((i : Nat) : Int) = (diagAfter c n).diag.LED) ∧
      (∃! i : Fin 6, (diagAfter c n).servo.pinlevel (servopin i) = true)) := by
  have hd := diagAfter_diag c h0 n
  obtain ⟨hdiv, hled⟩ := chase_iterate n
  rw [← hd] at hdiv hled
  refine ⟨hdiv, hled, ?_⟩
  intro hn
  have hpin : ∀ i : Fin 6, (diagAfter c n).servo.pinlevel (servopin i) = true ↔
      ((i : Nat) : Int) = (diagAfter c n).diag.LED := by
    intro i
    obtain ⟨k, hk⟩ : ∃ k, n = k + 1 := ⟨n - 1, by omega⟩
    have hlv : (diagAfter c n).servo.pinlevel =
        ledWrite (diagAfter c n).diag.LED (diagAfter c k).servo.pinlevel := by
      rw [hk, diagAfter_succ]
      rfl
    rw [hlv, ledWrite_pin]
    simp [eq_comm]
  refine ⟨hpin, ?_⟩
  have hlt : n / 21 % 6 < 6 := Nat.mod_lt _ (by decide)
  refine ⟨⟨n / 21 % 6, hlt⟩, ?_, ?_⟩
  · exact (hpin ⟨n / 21 % 6, hlt⟩).mpr hled.symm
  · intro j hj
    have h1 := (hpin j).mp hj
    rw [hled] at h1
    exact Fin.ext (by exact_mod_cast h1)

/-- Witness of C17 after 21 ticks from `ctlSample`: the pin of channel 1 is
the high one. -/
theorem Diagnostic_led_chase_witness :
    ((diagAfter ctlSample 21).servo.pinlevel (servopin 1) = true ↔
      (((1 : Fin 6) : Nat) : Int) = (diagAfter ctlSample 21).diag.LED) :=
  ((Diagnostic_led_chase ctlSample rfl 21).2.2 (by decide)).1 1

/-! ## Shutdown sequencer: claims -/

/-- Stopping the motors twice gives the same state as stopping them once. -/
theorem Motors_stop_idem (s : State) :
    Motors { Motors { s with lmspeed := 0, rmspeed := 0 } with lmspeed := 0, rmspeed := 0 }
      = Motors { s with lmspeed := 0, rmspeed := 0 } := by
  simp only [Motors]
  by_cases hl : s.lmbrake > 0 <;> by_cases hr : s.rmbrake > 0 <;> simp [hl, hr]

/-- An iteration of `Servos` for a channel with target 0 that is not attached
changes nothing and makes no call. -/
theorem servoIter_noop (s : ServoState) (i : Fin 6)
    (hp : s.servopos i = 0) (ha : s.attached i = false) : servoIter s i = (s, []) := by
  simp [servoIter, servoAttach, servoDetach, servoWrite, hp, ha]

/-- `Servos` with every target 0 and no channel attached changes nothing and
makes no call. -/
theorem Servos_noop (s : ServoState)
    (hp : ∀ i, s.servopos i = 0) (ha : ∀ i, s.attached i = false) : Servos s = (s, []) := by
  have key : ∀ l : List (Fin 6),
      l.foldl (fun acc i => ((servoIter acc.1 i).1, acc.2 ++ (servoIter acc.1 i).2)) (s, [])
        = (s, []) := by
    intro l
    induction l with
    | nil => rfl
    | cons i l ih =>
      rw [List.foldl_cons]
      have h := servoIter_noop s i (hp i) (ha i)
      simp only [h, List.append_nil]
      exact ih
  exact key (List.finRange 6)

/-- C18: after `Shutdown` both motor speeds and both PWM outputs are 0, all
six servo targets are 0 and all six channels are detached; and `Shutdown` is
idempotent on the controller state: a second call leaves the state as the
first call left it (and makes no further servo call). -/
theorem Shutdown_zeroes_and_idempotent (c : Controller) :
    ((Shutdown c).1.core.lmspeed = 0 ∧ (Shutdown c).1.core.rmspeed = 0) ∧
    ((Shutdown c).1.core.lmpwmpin = 0 ∧ (Shutdown c).1.core.rmpwmpin = 0) ∧
    (∀ i, (Shutdown c).1.servo.servopos i = 0) ∧
    (∀ i, (Shutdown c).1.servo.attached i = false) ∧
    (Shutdown (Shutdown c).1).1 = (Shutdown c).1 ∧
    (Shutdown (Shutdown c).1).2.2 = [] := by
  obtain ⟨_, hpos, _, hatt⟩ := Servos_spec { c.servo with servopos := fun _ => 0 }
  have hp : ∀ i, (Servos { c.servo with servopos := fun _ => 0 }).1.servopos i = 0 := by
    intro i
    rw [hpos]
  have ha : ∀ i, (Servos { c.servo with servopos := fun _ => 0 }).1.attached i = false := by
    intro i
    rw [hatt i]
    simp
  have hsame : { (Servos { c.servo with servopos := fun _ => 0 }).1 with
      servopos := fun _ => 0 } = (Servos { c.servo with servopos := fun _ => 0 }).1 := by
    have h : (Servos { c.servo with servopos := fun _ => 0 }).1.servopos = fun _ => 0 := hpos
    generalize (Servos { c.servo with servopos := fun _ => 0 }).1 = x at h
    cases x
    simp only at h
    simp [h]
  have hnoop := Servos_noop _ hp ha
  refine ⟨⟨rfl, rfl⟩, ⟨by simp [Shutdown, Motors, cabs], by simp [Shutdown, Motors, cabs]⟩,
    hp, ha, ?_, ?_⟩
  · simp only [Shutdown]
    rw [hsame, hnoop, Motors_stop_idem]
  · simp only [Shutdown]
    rw [hsame, hnoop]

/-- C20: `Shutdown` changes neither brake flag, and afterwards a side's
encoder count is 0 if that side's brake was engaged (`> 0`) and otherwise its
value before the call. -/
theorem Shutdown_brake_and_encoders (c : Controller) :
    (Shutdown c).1.core.lmbrake = c.core.lmbrake ∧
    (Shutdown c).1.core.rmbrake = c.core.rmbrake ∧
    (Shutdown c).1.core.lmenc = (if c.core.lmbrake > 0 then 0 else c.core.lmenc) ∧
    (Shutdown c).1.core.rmenc = (if c.core.rmbrake > 0 then 0 else c.core.rmenc) := by
  refine ⟨rfl, rfl, ?_, ?_⟩
  · simp [Shutdown, Motors]
  · simp [Shutdown, Motors]

/-! ## RC input decoder: symmetry -/

/-- Mirroring a pulse in 1..2999 about 1500 mirrors the value left by the
timeout and deadband statements. -/
theorem rcSnap_mirror (d : Int) (p : Nat) (h1 : 1 ≤ p) (h2 : p ≤ 2999) :
    rcSnap d (rcTimeout ((3000 - p : Nat) : Int)) = 3000 - rcSnap d (rcTimeout (p : Int)) := by
  unfold rcSnap rcTimeout cabs
  split_ifs <;> omega

theorem clampTo_neg (v : Int) : clampTo (-v) (-255) 255 = -clampTo v (-255) 255 := by
  unfold clampTo
  omega

/-- C19: for every deadband and every pair of pulses `s`, `t` in 1..2999,
`RCmode` on the mirrored pulses `(3000 - s, 3000 - t)` commits the negated
speeds of `RCmode` on `(s, t)`.  For `s = 3000` the mirror is the timeout value
0 and the symmetry fails: with deadband 35, pulses (3000, 1500) give
`lmspeed = 255` while their mirror (0, 1500) gives `lmspeed = 0`. -/
theorem RCmode_odd_symmetry (st : State) (s t : Nat)
    (hs1 : 1 ≤ s) (hs2 : s ≤ 2999) (ht1 : 1 ≤ t) (ht2 : t ≤ 2999) :
    ((RCmode st (3000 - s) (3000 - t)).lmspeed = -(RCmode st s t).lmspeed ∧
     (RCmode st (3000 - s) (3000 - t)).rmspeed = -(RCmode st s t).rmspeed) ∧
    ((RCmode sample 3000 1500).lmspeed = 255 ∧ (RCmode sample (3000 - 3000) 1500).lmspeed = 0) := by
  refine ⟨⟨?_, ?_⟩, by decide, by decide⟩
  · rw [RCmode_lmspeed, RCmode_lmspeed, rcSnap_mirror _ s hs1 hs2, rcSnap_mirror _ t ht1 ht2,
      ← clampTo_neg, ← Int.neg_tdiv]
    congr 2
    ring
  · rw [RCmode_rmspeed, RCmode_rmspeed, rcSnap_mirror _ s hs1 hs2, rcSnap_mirror _ t ht1 ht2,
      ← clampTo_neg, ← Int.neg_tdiv]
    congr 2
    ring

/-- Witness of C19: pulses (1800, 1300) commit (255, 80) and their mirror
(1200, 1700) commits the negated speeds. -/
theorem RCmode_odd_symmetry_witness :
    (RCmode sample (3000 - 1800) (3000 - 1300)).lmspeed = -(RCmode sample 1800 1300).lmspeed ∧
    (RCmode sample (3000 - 1800) (3000 - 1300)).rmspeed = -(RCmode sample 1800 1300).rmspeed :=
  (RCmode_odd_symmetry sample 1800 1300 (by decide) (by decide) (by decide) (by decide)).1

end TRex
